import Mathlib

/-!
# joist: `ActivityMonitor` (src/js/ActivityMonitor.js) and `SimVersion` (src/js/SimVersion.js)

A shallow embedding of the data-stream listener that `ActivityMonitor` registers in its
constructor, and of the engagement metrics it maintains; and of `SimVersion.compare`.

* Timestamps (`event.time`) are integers (milliseconds).
* The per-frame payload `event.data.dt` and the per-screen run time it is summed into live in an
  arbitrary type `R` with an addition, so that every statement about them holds for whatever
  addition the host numbers have.
* A JavaScript `TypeError` (property access on `undefined`, which is what
  `screens[ currentScreenIndex ]` yields for an index outside the array) is the `Except.error`
  outcome; it carries the state as mutated up to the throw.
-/

/-! ## `SimVersion` (src/js/SimVersion.js) -/

/-- The fields set by the `SimVersion` constructor (lines 19-29). The three required components
are integers; `suffix` and `buildTimestamp` are optional strings. -/
structure SimVersion where
  major : Int
  minor : Int
  maintenance : Int
  suffix : Option String
  buildTimestamp : Option String
  deriving DecidableEq, Repr

/-- `compare( version )` (lines 41-49): seven tests in sequence, each with an early return. -/
def SimVersion.compare (self version : SimVersion) : Int :=
  if self.major < version.major then -1
  else if self.major > version.major then 1
  else if self.minor < version.minor then -1
  else if self.minor > version.minor then 1
  else if self.maintenance < version.maintenance then -1
  else if self.maintenance > version.maintenance then 1
  else 0

namespace ActivityMonitor

/-! ## Data model -/

/-- Collaborators that live outside this repository and are taken as parameters:
`Property.CHANGED_EVENT_NAME` (AXON) and `phetio.PhetioIDUtils.getComponentName` (PHET_IO). -/
structure Env where
  CHANGED_EVENT_NAME : String
  getComponentName : String → String

/-- What the constructor reads from its `sim` argument: one `screenTandem.tail` per screen, the
initial values of `showHomeScreenProperty` and `screenIndexProperty`, and the phetioIDs of
`showHomeScreenProperty`, `screenIndexProperty` and `stepSimulationAction`. -/
structure Sim where
  screens : List String
  showHomeScreenValue : Bool
  screenIndexValue : Int
  showHomeScreenPhetioID : String
  screenIndexPhetioID : String
  stepSimulationPhetioID : String
  deriving DecidableEq, Repr

/-- The fields of `event.data` that the listener reads. `data.newValue` is read as a boolean by
the `showHomeScreenProperty` branch and as a number by the `screenIndexProperty` branch; `data.dt`
is read by the `stepSimulationAction` branch. -/
structure EventData (R : Type) where
  newValueBool : Bool
  newValueIndex : Int
  dt : R
  deriving DecidableEq, Repr

/-- One event of the data stream. -/
structure Event (R : Type) where
  phetioID : String
  name : String
  time : Int
  data : EventData R
  deriving DecidableEq, Repr

/-- The record `engagementMetrics.sim`. `null` is `none`. -/
structure SimMetrics where
  startOfData : Option Int
  currentTimeStamp : Option Int
  totalSecondsOfSimRun : Int
  totalSecondsActive : Nat
  deriving DecidableEq, Repr

/-- One element of `engagementMetrics.screens`. `null` is `none`. -/
structure ScreenMetrics (R : Type) where
  tandemName : String
  timeStampOfFirstUse : Option Int
  timeStampOfLastUse : Option Int
  totalSecondsOfScreenRun : R
  totalSecondsActive : Nat
  deriving DecidableEq, Repr

/-- The object `this.engagementMetrics`. -/
structure EngagementMetrics (R : Type) where
  sim : SimMetrics
  screens : List (ScreenMetrics R)
  deriving DecidableEq, Repr

/-- The whole mutable state of one `ActivityMonitor`: `this.engagementMetrics` together with the
four variables the listener closes over. -/
structure Monitor (R : Type) where
  engagementMetrics : EngagementMetrics R
  firstActive : Bool
  activeSecondStartTime : Option Int
  isHomeScreenShowing : Bool
  currentScreenIndex : Int
  deriving DecidableEq, Repr

/-! ## Helpers for the JavaScript idioms used by the listener -/

/-- JavaScript `value || fallback` for a `null`-or-number `value`: `null` and `0` are falsy. -/
def orElse (value : Option Int) (fallback : Int) : Int :=
  match value with
  | none => fallback
  | some v => if v = 0 then fallback else v

/-- The array read `screens[ index ]`: `undefined` (`none`) outside the array. -/
def screenAt {R : Type} (screens : List (ScreenMetrics R)) (index : Int) :
    Option (ScreenMetrics R) :=
  if 0 ≤ index then screens[index.toNat]? else none

/-- A field assignment on the object `screens[ currentScreenIndex ]`. When that object is
`undefined` the property access throws and nothing is written. -/
def withCurrentScreen {R : Type} (m : Monitor R) (f : ScreenMetrics R → ScreenMetrics R) :
    Except (Monitor R) (Monitor R) :=
  match screenAt m.engagementMetrics.screens m.currentScreenIndex with
  | none => Except.error m
  | some entry =>
    Except.ok { m with engagementMetrics :=
      { m.engagementMetrics with
        screens := m.engagementMetrics.screens.set m.currentScreenIndex.toNat (f entry) } }

/-- Modelled from the spec: `Util.toFixedNumber( msDifference / 1000, 0 )` of DOT, which is not
part of this repository. The spec says the elapsed milliseconds are "divided by 1000, rounded to
the nearest integer"; a tie is rounded away from zero, as `Number.prototype.toFixed` does. -/
def toFixedNumber (msDifference : Int) : Int :=
  if 0 ≤ msDifference then (msDifference + 500) / 1000 else -((-msDifference + 500) / 1000)

/-! ## The constructor -/

/-- The state built by `constructor( sim )` before any event has been delivered
(ActivityMonitor.js lines 41-70). -/
def construct {R : Type} [Zero R] (sim : Sim) : Monitor R :=
  { engagementMetrics :=
      { sim :=
          { startOfData := none
            currentTimeStamp := none
            totalSecondsOfSimRun := 0
            totalSecondsActive := 0 }
        screens := sim.screens.map fun tail =>
          { tandemName := tail
            timeStampOfFirstUse := none
            timeStampOfLastUse := none
            totalSecondsOfScreenRun := 0
            totalSecondsActive := 0 } }
    firstActive := false
    activeSecondStartTime := none
    isHomeScreenShowing := sim.showHomeScreenValue
    currentScreenIndex := sim.screenIndexValue }

/-! ## The listener -/

/-- `isActiveEvent( event )` (lines 138-146): a flag that starts `false` and is set by a
`forEach` over the four component names. -/
def isActiveEvent {R : Type} (env : Env) (event : Event R) : Bool :=
  ["mouseDownAction", "touchDownAction", "keydownAction", "penDownAction"].foldl
    (fun flag eventName =>
      if env.getComponentName event.phetioID = eventName then true else flag)
    false

/-- Line 77: `screenElement.timeStampOfFirstUse = screenElement.timeStampOfFirstUse || event.time`. -/
def stampFirstUse {R : Type} (time : Int) (screenElement : ScreenMetrics R) : ScreenMetrics R :=
  { screenElement with
    timeStampOfFirstUse := some (orElse screenElement.timeStampOfFirstUse time) }

/-- Line 102: `currentScreenEntry.totalSecondsActive += 1`. -/
def countActiveSecond {R : Type} (currentScreenEntry : ScreenMetrics R) : ScreenMetrics R :=
  { currentScreenEntry with totalSecondsActive := currentScreenEntry.totalSecondsActive + 1 }

/-- Line 126: `currentScreenEntry.totalSecondsOfScreenRun += event.data.dt`. -/
def addRunSeconds {R : Type} [Add R] (dt : R) (currentScreenEntry : ScreenMetrics R) :
    ScreenMetrics R :=
  { currentScreenEntry with
    totalSecondsOfScreenRun := currentScreenEntry.totalSecondsOfScreenRun + dt }

/-- `updateScreenStartTime` (lines 74-79). -/
def updateScreenStartTime {R : Type} (m : Monitor R) (event : Event R) :
    Except (Monitor R) (Monitor R) :=
  if !m.isHomeScreenShowing then
    withCurrentScreen m (stampFirstUse event.time)
  else
    Except.ok m

/-- The guard of lines 82-83. -/
def isShowHomeScreenChange {R : Type} (env : Env) (sim : Sim) (event : Event R) : Bool :=
  event.phetioID = sim.showHomeScreenPhetioID && event.name = env.CHANGED_EVENT_NAME

/-- The guard of lines 88-89. -/
def isScreenIndexChange {R : Type} (env : Env) (sim : Sim) (event : Event R) : Bool :=
  event.phetioID = sim.screenIndexPhetioID && event.name = env.CHANGED_EVENT_NAME

/-- The second conjunct of the guard of line 125. -/
def isStepSimulation {R : Type} (sim : Sim) (event : Event R) : Bool :=
  event.phetioID = sim.stepSimulationPhetioID

/-- Lines 82-86: a change of `showHomeScreenProperty`. -/
def onShowHomeScreen {R : Type} (env : Env) (sim : Sim) (m : Monitor R) (event : Event R) :
    Except (Monitor R) (Monitor R) :=
  if isShowHomeScreenChange env sim event then
    updateScreenStartTime { m with isHomeScreenShowing := event.data.newValueBool } event
  else
    Except.ok m

/-- Lines 88-92: a change of `screenIndexProperty`. -/
def onScreenIndex {R : Type} (env : Env) (sim : Sim) (m : Monitor R) (event : Event R) :
    Except (Monitor R) (Monitor R) :=
  if isScreenIndexChange env sim event then
    updateScreenStartTime { m with currentScreenIndex := event.data.newValueIndex } event
  else
    Except.ok m

/-- Line 98: `this.engagementMetrics.sim.totalSecondsActive += 1`. -/
def countSimActiveSecond {R : Type} (m : Monitor R) : Monitor R :=
  { m with engagementMetrics :=
    { m.engagementMetrics with
      sim := { m.engagementMetrics.sim with
        totalSecondsActive := m.engagementMetrics.sim.totalSecondsActive + 1 } } }

/-- Lines 94-105: closing the active second. The sim counter is incremented before the screen
entry is touched, and `activeSecondStartTime` is cleared after it. -/
def closeActiveSecond {R : Type} (m : Monitor R) (event : Event R) :
    Except (Monitor R) (Monitor R) :=
  match m.activeSecondStartTime with
  | none => Except.ok m
  | some start =>
    if event.time - start > 1000 then
      let m1 := countSimActiveSecond m
      let counted : Except (Monitor R) (Monitor R) :=
        if !m1.isHomeScreenShowing then withCurrentScreen m1 countActiveSecond
        else Except.ok m1
      counted.bind fun m2 => Except.ok { m2 with activeSecondStartTime := none }
    else
      Except.ok m

/-- Lines 106-117: an active event sets `startOfData` the first time and opens an active second
when none is open. -/
def onActiveEvent {R : Type} (env : Env) (m : Monitor R) (event : Event R) : Monitor R :=
  if isActiveEvent env event then
    let m1 : Monitor R :=
      if !m.firstActive then
        { m with
          firstActive := true
          engagementMetrics :=
            { m.engagementMetrics with
              sim := { m.engagementMetrics.sim with startOfData := some event.time } } }
      else m
    if m1.activeSecondStartTime = none then
      { m1 with activeSecondStartTime := some event.time }
    else m1
  else m

/-- Lines 119-122: `currentTimeStamp` and `totalSecondsOfSimRun`. -/
def updateSimTotals {R : Type} (m : Monitor R) (event : Event R) : Monitor R :=
  let startTime := orElse m.engagementMetrics.sim.startOfData event.time
  let msDifference := event.time - startTime
  { m with engagementMetrics :=
    { m.engagementMetrics with
      sim := { m.engagementMetrics.sim with
        currentTimeStamp := some event.time
        totalSecondsOfSimRun := toFixedNumber msDifference } } }

/-- Lines 125-127: the run time of the current screen. -/
def addScreenRun {R : Type} [Add R] (sim : Sim) (m : Monitor R) (event : Event R) :
    Except (Monitor R) (Monitor R) :=
  if !m.isHomeScreenShowing && isStepSimulation sim event then
    withCurrentScreen m (addRunSeconds event.data.dt)
  else
    Except.ok m

/-- The callback passed to `dataStream.addAllEventListener` (lines 72-128), as a function from
the state before the event to the state after it. -/
def listener {R : Type} [Add R] (env : Env) (sim : Sim) (m : Monitor R) (event : Event R) :
    Except (Monitor R) (Monitor R) :=
  (onShowHomeScreen env sim m event).bind fun m1 =>
  (onScreenIndex env sim m1 event).bind fun m2 =>
  (closeActiveSecond m2 event).bind fun m3 =>
  addScreenRun sim (updateSimTotals (onActiveEvent env m3 event) event) event

/-- The listener applied to a whole stream, oldest event first, stopping at the first throw. -/
def run {R : Type} [Add R] (env : Env) (sim : Sim) (m : Monitor R) :
    List (Event R) → Except (Monitor R) (Monitor R)
  | [] => Except.ok m
  | event :: rest => (listener env sim m event).bind fun m1 => run env sim m1 rest

/-- `getActivity()` (lines 153-155). -/
def getActivity {R : Type} (m : Monitor R) : EngagementMetrics R :=
  m.engagementMetrics

/-! ## Vocabulary of the statements below -/

/-- `isHomeScreenShowing` once lines 82-86 have run. -/
def homeAfterUpdate {R : Type} (env : Env) (sim : Sim) (m : Monitor R) (event : Event R) : Bool :=
  if isShowHomeScreenChange env sim event then event.data.newValueBool
  else m.isHomeScreenShowing

/-- `currentScreenIndex` once lines 88-92 have run. -/
def indexAfterUpdate {R : Type} (env : Env) (sim : Sim) (m : Monitor R) (event : Event R) : Int :=
  if isScreenIndexChange env sim event then event.data.newValueIndex
  else m.currentScreenIndex

/-- The condition of line 95: an active second is open and the event is more than 1000 ms
after its start. -/
def closesActiveSecond {R : Type} (m : Monitor R) (event : Event R) : Bool :=
  match m.activeSecondStartTime with
  | none => false
  | some start => decide (event.time - start > 1000)

/-- `engagementMetrics.sim.totalSecondsActive`. -/
def simActive {R : Type} (m : Monitor R) : Nat :=
  m.engagementMetrics.sim.totalSecondsActive

/-- `engagementMetrics.screens[ i ].totalSecondsActive`, `none` when there is no such screen. -/
def screenActiveAt {R : Type} (m : Monitor R) (i : Int) : Option Nat :=
  (screenAt m.engagementMetrics.screens i).map fun entry => entry.totalSecondsActive

/-- `engagementMetrics.screens[ i ].totalSecondsOfScreenRun`, `none` when there is no such
screen. -/
def screenRunAt {R : Type} (m : Monitor R) (i : Int) : Option R :=
  (screenAt m.engagementMetrics.screens i).map fun entry => entry.totalSecondsOfScreenRun

/-- `engagementMetrics.screens[ i ].timeStampOfFirstUse`: `none` when there is no such screen,
`some none` when the screen exists and the field is still `null`. -/
def firstUseAt {R : Type} (m : Monitor R) (i : Int) : Option (Option Int) :=
  (screenAt m.engagementMetrics.screens i).map fun entry => entry.timeStampOfFirstUse

/-- What one completed call of the listener does to the screen entry `s` found at index `i`
before the call: the four writes of lines 77 (twice), 102 and 126, each under its guard. -/
def entryAfter {R : Type} [Add R] (env : Env) (sim : Sim) (m : Monitor R) (event : Event R)
    (i : Int) (s : ScreenMetrics R) : ScreenMetrics R :=
  let s1 :=
    if isShowHomeScreenChange env sim event = true ∧ event.data.newValueBool = false ∧
        i = m.currentScreenIndex
    then stampFirstUse event.time s else s
  let s2 :=
    if isScreenIndexChange env sim event = true ∧ homeAfterUpdate env sim m event = false ∧
        i = indexAfterUpdate env sim m event
    then stampFirstUse event.time s1 else s1
  let s3 :=
    if closesActiveSecond m event = true ∧ homeAfterUpdate env sim m event = false ∧
        i = indexAfterUpdate env sim m event
    then countActiveSecond s2 else s2
  if homeAfterUpdate env sim m event = false ∧ isStepSimulation sim event = true ∧
      i = indexAfterUpdate env sim m event
  then addRunSeconds event.data.dt s3 else s3

/-- The value of `activeSecondStartTime` after lines 95-117. -/
def windowAfter {R : Type} (env : Env) (m : Monitor R) (event : Event R) : Option Int :=
  let closed := if closesActiveSecond m event then none else m.activeSecondStartTime
  if isActiveEvent env event then
    match closed with
    | none => some event.time
    | some start => some start
  else closed

/-- The value of `engagementMetrics.sim.startOfData` after lines 106-112. -/
def startOfDataAfter {R : Type} (env : Env) (m : Monitor R) (event : Event R) : Option Int :=
  if isActiveEvent env event = true ∧ m.firstActive = false then some event.time
  else m.engagementMetrics.sim.startOfData

/-- Two states that agree on everything but the list of screen entries. -/
def SameFrame {R : Type} (m m' : Monitor R) : Prop :=
  m'.engagementMetrics.sim = m.engagementMetrics.sim ∧
  m'.firstActive = m.firstActive ∧
  m'.activeSecondStartTime = m.activeSecondStartTime ∧
  m'.isHomeScreenShowing = m.isHomeScreenShowing ∧
  m'.currentScreenIndex = m.currentScreenIndex

/-- The state the monitor is left in by a call, whether it returned or threw. -/
def stateAfter {R : Type} : Except (Monitor R) (Monitor R) → Monitor R
  | Except.ok m => m
  | Except.error m => m

/-! ## A small concrete simulation, used to instantiate the statements -/

/-- `Property.CHANGED_EVENT_NAME` is `'changed'`; phetioIDs without a separator are their own
component name. -/
def demoEnv : Env :=
  { CHANGED_EVENT_NAME := "changed"
    getComponentName := fun phetioID => phetioID }

/-- A sim with two screens that starts on its home screen. -/
def demoSim : Sim :=
  { screens := ["first", "second"]
    showHomeScreenValue := true
    screenIndexValue := 0
    showHomeScreenPhetioID := "showHomeScreenProperty"
    screenIndexPhetioID := "screenIndexProperty"
    stepSimulationPhetioID := "stepSimulationAction" }

/-- A `mouseDownAction` event at `time`. -/
def pointerDown {R : Type} [Zero R] (time : Int) : Event R :=
  { phetioID := "mouseDownAction", name := "emitted", time := time
    data := { newValueBool := false, newValueIndex := 0, dt := 0 } }

/-- A `stepSimulationAction` event at `time` with payload `dt`. -/
def stepSimulation {R : Type} (time : Int) (dt : R) : Event R :=
  { phetioID := "stepSimulationAction", name := "emitted", time := time
    data := { newValueBool := false, newValueIndex := 0, dt := dt } }

/-- A change of `showHomeScreenProperty` to `newValue` at `time`. -/
def showHomeScreenChanged {R : Type} [Zero R] (time : Int) (newValue : Bool) : Event R :=
  { phetioID := "showHomeScreenProperty", name := "changed", time := time
    data := { newValueBool := newValue, newValueIndex := 0, dt := 0 } }

/-- A change of `screenIndexProperty` to `newValue` at `time`. -/
def screenIndexChanged {R : Type} [Zero R] (time : Int) (newValue : Int) : Event R :=
  { phetioID := "screenIndexProperty", name := "changed", time := time
    data := { newValueBool := false, newValueIndex := newValue, dt := 0 } }

/-- A fresh monitor for `demoSim`, with integer payloads. -/
def demoFresh : Monitor Int := construct demoSim

/-- The first screen is showing and an active second has been open since 200. -/
def demoOpen : Monitor Int :=
  { engagementMetrics :=
      { sim :=
          { startOfData := some 200
            currentTimeStamp := some 200
            totalSecondsOfSimRun := 0
            totalSecondsActive := 0 }
        screens :=
          [ { tandemName := "first", timeStampOfFirstUse := some 100, timeStampOfLastUse := none
              totalSecondsOfScreenRun := 0, totalSecondsActive := 0 },
            { tandemName := "second", timeStampOfFirstUse := none, timeStampOfLastUse := none
              totalSecondsOfScreenRun := 0, totalSecondsActive := 0 } ] }
    firstActive := true
    activeSecondStartTime := some 200
    isHomeScreenShowing := false
    currentScreenIndex := 0 }

/-- The state `demoOpen` after a pointer press at 1300. -/
def demoReopened : Monitor Int :=
  stateAfter (listener demoEnv demoSim demoOpen (pointerDown 1300))

/-- The state `demoFresh` after a pointer press at 0 and a step at 999. -/
def demoWaiting : Monitor Int :=
  stateAfter (run demoEnv demoSim demoFresh [pointerDown 0, stepSimulation 999 16])

/-- The state `demoWaiting` after a step at 1001. -/
def demoCounted : Monitor Int :=
  stateAfter (listener demoEnv demoSim demoWaiting (stepSimulation 1001 16))

/-- The state `demoFresh` after pointer presses at 0 and 500. -/
def demoPressedTwice : Monitor Int :=
  stateAfter (run demoEnv demoSim demoFresh [pointerDown 0, pointerDown 500])

/-- The state `demoPressedTwice` after a step at 1200. -/
def demoOneSecond : Monitor Int :=
  stateAfter (run demoEnv demoSim demoPressedTwice [stepSimulation 1200 16])

/-- The state `demoFresh` after a step and a change to the first screen. -/
def demoIdle : Monitor Int :=
  stateAfter (run demoEnv demoSim demoFresh [stepSimulation 16 16, showHomeScreenChanged 20 false])

/-- The state `demoOpen` after a step at 216 with payload 16. -/
def demoStepped : Monitor Int :=
  stateAfter (listener demoEnv demoSim demoOpen (stepSimulation 216 16))

/-- The value stated for `timeStampOfFirstUse` of screen `i` by C10, in its own words:
the time of the first event of the stream after whose processing screen `i` is the current screen
and the home screen is not showing; unset if there is no such event. `home` and `index` are
`isHomeScreenShowing` and `currentScreenIndex` before the stream. -/
def firstUseClaimed {R : Type} (env : Env) (sim : Sim) (home : Bool) (index : Int) (i : Int) :
    List (Event R) → Option Int
  | [] => none
  | event :: rest =>
    let home1 := if isShowHomeScreenChange env sim event then event.data.newValueBool else home
    let index1 := if isScreenIndexChange env sim event then event.data.newValueIndex else index
    if home1 = false ∧ index1 = i then some event.time
    else firstUseClaimed env sim home1 index1 i rest

/-- The amended value for `timeStampOfFirstUse` of screen `i`: as `firstUseClaimed`, but only a
change of `showHomeScreenProperty` or of `screenIndexProperty` counts, because only those two
branches call `updateScreenStartTime`. -/
def firstUseStamped {R : Type} (env : Env) (sim : Sim) (home : Bool) (index : Int) (i : Int) :
    List (Event R) → Option Int
  | [] => none
  | event :: rest =>
    let home1 := if isShowHomeScreenChange env sim event then event.data.newValueBool else home
    let index1 := if isScreenIndexChange env sim event then event.data.newValueIndex else index
    if (isShowHomeScreenChange env sim event = true ∨ isScreenIndexChange env sim event = true) ∧
        home1 = false ∧ index1 = i
    then some event.time
    else firstUseStamped env sim home1 index1 i rest

/-- A sim with two screens that starts on its first screen, the home screen not showing. -/
def demoSimOnScreen : Sim :=
  { demoSim with showHomeScreenValue := false }

/-- The state `demoFresh` after a pointer press at 0 and a step at 5000. -/
def demoLate : Monitor Int :=
  stateAfter (run demoEnv demoSim demoFresh [pointerDown 0, stepSimulation 5000 16])

/-- The state `demoFresh` after a pointer press at 0. -/
def demoPressedAtZero : Monitor Int :=
  stateAfter (run demoEnv demoSim demoFresh [pointerDown 0])

/-- The state `demoPressedAtZero` after a pointer press at 700. -/
def demoPressedAgain : Monitor Int :=
  stateAfter (run demoEnv demoSim demoPressedAtZero [pointerDown 700])

/-- The state `demoFresh` after the first screen is shown at 0 and the second one at 5. -/
def demoUsedAtZero : Monitor Int :=
  stateAfter (run demoEnv demoSim demoFresh
    [showHomeScreenChanged 0 false, screenIndexChanged 5 1])

/-- The state `demoUsedAtZero` after a return to the first screen at 7. -/
def demoUsedAgain : Monitor Int :=
  stateAfter (listener demoEnv demoSim demoUsedAtZero (screenIndexChanged 7 0))

/-- A fresh monitor for `demoSimOnScreen` after one step at 5. -/
def demoRunning : Monitor Int :=
  stateAfter (run demoEnv demoSimOnScreen (construct demoSimOnScreen) [stepSimulation 5 16])

/-- The state `demoFresh` after the first screen is shown at 100 and the second one at 250. -/
def demoVisited : Monitor Int :=
  stateAfter (run demoEnv demoSim demoFresh
    [showHomeScreenChanged 100 false, stepSimulation 116 16, screenIndexChanged 250 1])

/-- The four guards of the listener evaluated on one event, in the order
`isShowHomeScreenChange`, `isScreenIndexChange`, `isActiveEvent`, `isStepSimulation`. -/
def classify {R : Type} (env : Env) (sim : Sim) (event : Event R) : Bool × Bool × Bool × Bool :=
  (isShowHomeScreenChange env sim event, isScreenIndexChange env sim event,
    isActiveEvent env event, isStepSimulation sim event)

/-- The sum of `totalSecondsActive` over all screen entries. -/
def screensActive {R : Type} (m : Monitor R) : Nat :=
  (m.engagementMetrics.screens.map fun entry => entry.totalSecondsActive).sum

/-- The state `demoOpen` after a step whose time, 100, is earlier than the last one seen. -/
def demoRegressed : Monitor Int :=
  stateAfter (listener demoEnv demoSim demoOpen (stepSimulation 100 16))

/-- The state `demoFresh` after `screenIndexProperty` changes to 5, which names no screen. -/
def demoOffList : Monitor Int :=
  stateAfter (listener demoEnv demoSim demoFresh (screenIndexChanged 10 5))

/-- The state `demoOpen` after `screenIndexProperty` changes to 5, which names no screen. -/
def demoOffListThrown : Monitor Int :=
  stateAfter (listener demoEnv demoSim demoOpen (screenIndexChanged 300 5))

/-- The bound kept by the listener on streams with non-decreasing times. Before the first active
event nothing has been counted. After it, the counted seconds fit between `startOfData` and the
start of the open active second, or the last time seen when none is open. -/
def ActiveWithinElapsed {R : Type} (m : Monitor R) : Prop :=
  (m.firstActive = false ∧ m.engagementMetrics.sim.startOfData = none ∧
    m.activeSecondStartTime = none ∧ m.engagementMetrics.sim.totalSecondsActive = 0) ∨
  (m.firstActive = true ∧
    ∃ startOfData current : Int,
      m.engagementMetrics.sim.startOfData = some startOfData ∧
      m.engagementMetrics.sim.currentTimeStamp = some current ∧
      match m.activeSecondStartTime with
      | none =>
        1000 * (m.engagementMetrics.sim.totalSecondsActive : Int) ≤ current - startOfData
      | some start =>
        start ≤ current ∧
        1000 * (m.engagementMetrics.sim.totalSecondsActive : Int) ≤ start - startOfData)

/-- The state `demoFresh` after a pointer press at 0 and a step at 1200. -/
def demoTimed : Monitor Int :=
  stateAfter (run demoEnv demoSim demoFresh [pointerDown 0, stepSimulation 1200 16])

variable {R : Type}

/-! ## The listener, step by step -/

theorem screenAt_set (l : List (ScreenMetrics R)) (j : Int) (hj : 0 ≤ j) (x : ScreenMetrics R)
    (i : Int) :
    screenAt (l.set j.toNat x) i = if i = j then (screenAt l i).map (fun _ => x) else screenAt l i := by
  unfold screenAt
  by_cases hi : 0 ≤ i
  · simp only [hi, if_true]
    by_cases hij : i = j
    · subst hij
      simp [List.getElem?_set]
      split <;> rename_i h
      · simp [List.getElem?_eq_getElem h]
      · simp [List.getElem?_eq_none (Nat.le_of_not_lt h)]
    · have : j.toNat ≠ i.toNat := by omega
      simp [hij, List.getElem?_set, this]
  · have : i ≠ j := by omega
    simp [hi, this]

theorem withCurrentScreen_ok {m m' : Monitor R} {f : ScreenMetrics R → ScreenMetrics R}
    (h : withCurrentScreen m f = Except.ok m') :
    (∃ entry, screenAt m.engagementMetrics.screens m.currentScreenIndex = some entry) ∧
    SameFrame m m' ∧
    ∀ i, screenAt m'.engagementMetrics.screens i =
      (screenAt m.engagementMetrics.screens i).map
        (fun s => if i = m.currentScreenIndex then f s else s) := by
  unfold withCurrentScreen at h
  split at h
  · cases h
  · rename_i entry he
    have h0 : 0 ≤ m.currentScreenIndex := by
      by_contra hc
      simp [screenAt, hc] at he
    injection h with h
    subst h
    refine ⟨⟨entry, he⟩, ⟨rfl, rfl, rfl, rfl, rfl⟩, ?_⟩
    intro i
    simp only [screenAt_set _ _ h0]
    split
    · rename_i hi; subst hi; simp [he]
    · simp

theorem withCurrentScreen_of_some {m : Monitor R} {f : ScreenMetrics R → ScreenMetrics R}
    {entry : ScreenMetrics R}
    (h : screenAt m.engagementMetrics.screens m.currentScreenIndex = some entry) :
    ∃ m', withCurrentScreen m f = Except.ok m' := by
  unfold withCurrentScreen
  rw [h]
  exact ⟨_, rfl⟩

theorem updateScreenStartTime_ok {m m' : Monitor R} {event : Event R}
    (h : updateScreenStartTime m event = Except.ok m') :
    SameFrame m m' ∧
    ∀ i, screenAt m'.engagementMetrics.screens i =
      (screenAt m.engagementMetrics.screens i).map
        (fun s => if m.isHomeScreenShowing = false ∧ i = m.currentScreenIndex
          then stampFirstUse event.time s else s) := by
  unfold updateScreenStartTime at h
  cases hh : m.isHomeScreenShowing
  · simp only [hh, Bool.not_false, if_true] at h
    obtain ⟨-, hf, hs⟩ := withCurrentScreen_ok h
    exact ⟨hf, by simpa using hs⟩
  · simp only [hh, Bool.not_true] at h
    injection h with h
    subst h
    exact ⟨⟨rfl, rfl, rfl, rfl, rfl⟩, by simp⟩

theorem onShowHomeScreen_ok {env : Env} {sim : Sim} {m m' : Monitor R} {event : Event R}
    (h : onShowHomeScreen env sim m event = Except.ok m') :
    m'.engagementMetrics.sim = m.engagementMetrics.sim ∧
    m'.firstActive = m.firstActive ∧
    m'.activeSecondStartTime = m.activeSecondStartTime ∧
    m'.isHomeScreenShowing = homeAfterUpdate env sim m event ∧
    m'.currentScreenIndex = m.currentScreenIndex ∧
    ∀ i, screenAt m'.engagementMetrics.screens i =
      (screenAt m.engagementMetrics.screens i).map
        (fun s => if isShowHomeScreenChange env sim event = true ∧
            event.data.newValueBool = false ∧ i = m.currentScreenIndex
          then stampFirstUse event.time s else s) := by
  unfold onShowHomeScreen at h
  unfold homeAfterUpdate
  cases hc : isShowHomeScreenChange env sim event
  · simp only [hc, Bool.false_eq_true, if_false] at h
    injection h with h
    subst h
    simp
  · simp only [hc, if_true] at h
    obtain ⟨⟨h1, h2, h3, h4, h5⟩, hs⟩ := updateScreenStartTime_ok h
    refine ⟨h1, h2, h3, by simpa using h4, h5, ?_⟩
    simpa using hs

theorem onScreenIndex_ok {env : Env} {sim : Sim} {m m' : Monitor R} {event : Event R}
    (h : onScreenIndex env sim m event = Except.ok m') :
    m'.engagementMetrics.sim = m.engagementMetrics.sim ∧
    m'.firstActive = m.firstActive ∧
    m'.activeSecondStartTime = m.activeSecondStartTime ∧
    m'.isHomeScreenShowing = m.isHomeScreenShowing ∧
    m'.currentScreenIndex = indexAfterUpdate env sim m event ∧
    ∀ i, screenAt m'.engagementMetrics.screens i =
      (screenAt m.engagementMetrics.screens i).map
        (fun s => if isScreenIndexChange env sim event = true ∧
            m.isHomeScreenShowing = false ∧ i = indexAfterUpdate env sim m event
          then stampFirstUse event.time s else s) := by
  unfold onScreenIndex at h
  unfold indexAfterUpdate
  cases hc : isScreenIndexChange env sim event
  · simp only [hc, Bool.false_eq_true, if_false] at h
    injection h with h
    subst h
    simp
  · simp only [hc, if_true] at h
    obtain ⟨⟨h1, h2, h3, h4, h5⟩, hs⟩ := updateScreenStartTime_ok h
    refine ⟨h1, h2, h3, h4, by simpa using h5, ?_⟩
    simpa using hs

theorem closeActiveSecond_ok {m m' : Monitor R} {event : Event R}
    (h : closeActiveSecond m event = Except.ok m') :
    m'.engagementMetrics.sim =
      { m.engagementMetrics.sim with
        totalSecondsActive := m.engagementMetrics.sim.totalSecondsActive +
          if closesActiveSecond m event then 1 else 0 } ∧
    m'.firstActive = m.firstActive ∧
    m'.activeSecondStartTime =
      (if closesActiveSecond m event then none else m.activeSecondStartTime) ∧
    m'.isHomeScreenShowing = m.isHomeScreenShowing ∧
    m'.currentScreenIndex = m.currentScreenIndex ∧
    (closesActiveSecond m event = true → m.isHomeScreenShowing = false →
      ∃ entry, screenAt m.engagementMetrics.screens m.currentScreenIndex = some entry) ∧
    ∀ i, screenAt m'.engagementMetrics.screens i =
      (screenAt m.engagementMetrics.screens i).map
        (fun s => if closesActiveSecond m event = true ∧
            m.isHomeScreenShowing = false ∧ i = m.currentScreenIndex
          then countActiveSecond s else s) := by
  unfold closeActiveSecond at h
  cases hw : m.activeSecondStartTime with
  | none =>
    have hc : closesActiveSecond m event = false := by simp [closesActiveSecond, hw]
    simp only [hw] at h
    injection h with h
    subst h
    simp [hc, hw]
  | some start =>
    simp only [hw] at h
    by_cases hgt : event.time - start > 1000
    · have hc : closesActiveSecond m event = true := by simp [closesActiveSecond, hw, hgt]
      simp only [hgt, if_true] at h
      by_cases hh : m.isHomeScreenShowing = false
      · have hh1 : (countSimActiveSecond m).isHomeScreenShowing = false := hh
        simp only [hh1, Bool.not_false, if_true] at h
        cases hwc : withCurrentScreen (countSimActiveSecond m) countActiveSecond with
        | error x => rw [hwc] at h; cases h
        | ok m2 =>
          rw [hwc] at h
          obtain ⟨hex, ⟨h1, h2, h3, h4, h5⟩, hs⟩ := withCurrentScreen_ok hwc
          simp only [Except.bind] at h
          injection h with h
          subst h
          refine ⟨by simpa [hc] using h1, h2, by simp [hc], h4, h5, fun _ _ => hex, ?_⟩
          intro i
          simpa [hc, hh] using hs i
      · have hh1 : (countSimActiveSecond m).isHomeScreenShowing = true := by
          simpa using hh
        simp only [hh1, Bool.not_true, Bool.false_eq_true, if_false, Except.bind] at h
        injection h with h
        subst h
        have hh2 : m.isHomeScreenShowing = true := by simpa using hh
        refine ⟨by simp [hc, countSimActiveSecond], rfl, by simp [hc], by simp [hh2], rfl,
          fun _ h2 => absurd h2 hh, ?_⟩
        intro i
        simp [hh, countSimActiveSecond]
    · have hc : closesActiveSecond m event = false := by simp [closesActiveSecond, hw, hgt]
      simp only [hgt, if_false] at h
      injection h with h
      subst h
      simp [hc, hw]

theorem addScreenRun_ok [Add R] {sim : Sim} {m m' : Monitor R} {event : Event R}
    (h : addScreenRun sim m event = Except.ok m') :
    SameFrame m m' ∧
    (m.isHomeScreenShowing = false → isStepSimulation sim event = true →
      ∃ entry, screenAt m.engagementMetrics.screens m.currentScreenIndex = some entry) ∧
    ∀ i, screenAt m'.engagementMetrics.screens i =
      (screenAt m.engagementMetrics.screens i).map
        (fun s => if m.isHomeScreenShowing = false ∧ isStepSimulation sim event = true ∧
            i = m.currentScreenIndex
          then addRunSeconds event.data.dt s else s) := by
  unfold addScreenRun at h
  by_cases hc : (!m.isHomeScreenShowing && isStepSimulation sim event) = true
  · simp only [hc, if_true] at h
    obtain ⟨hex, hf, hs⟩ := withCurrentScreen_ok h
    simp only [Bool.and_eq_true, Bool.not_eq_true'] at hc
    refine ⟨hf, fun _ _ => hex, ?_⟩
    intro i
    simpa [hc.1, hc.2] using hs i
  · simp only [hc, if_false] at h
    injection h with h
    subst h
    simp only [Bool.and_eq_true, Bool.not_eq_true', not_and] at hc
    refine ⟨⟨rfl, rfl, rfl, rfl, rfl⟩, fun h1 h2 => absurd h2 (hc h1), ?_⟩
    intro i
    have : ¬ (m.isHomeScreenShowing = false ∧ isStepSimulation sim event = true ∧
        i = m.currentScreenIndex) := fun hx => hc hx.1 hx.2.1
    simp [this]

theorem closesActiveSecond_congr {m m2 : Monitor R} (event : Event R)
    (h : m2.activeSecondStartTime = m.activeSecondStartTime) :
    closesActiveSecond m2 event = closesActiveSecond m event := by
  simp [closesActiveSecond, h]

theorem onActiveEvent_fields (env : Env) (m : Monitor R) (event : Event R) :
    (onActiveEvent env m event).isHomeScreenShowing = m.isHomeScreenShowing ∧
    (onActiveEvent env m event).currentScreenIndex = m.currentScreenIndex ∧
    (onActiveEvent env m event).engagementMetrics.screens = m.engagementMetrics.screens ∧
    (onActiveEvent env m event).firstActive = (m.firstActive || isActiveEvent env event) ∧
    (onActiveEvent env m event).activeSecondStartTime =
      (if isActiveEvent env event then
        match m.activeSecondStartTime with
        | none => some event.time
        | some start => some start
      else m.activeSecondStartTime) ∧
    (onActiveEvent env m event).engagementMetrics.sim.startOfData =
      startOfDataAfter env m event ∧
    (onActiveEvent env m event).engagementMetrics.sim.totalSecondsActive =
      m.engagementMetrics.sim.totalSecondsActive := by
  unfold onActiveEvent startOfDataAfter
  cases ha : isActiveEvent env event <;> cases hf : m.firstActive <;>
    cases hw : m.activeSecondStartTime <;> simp [hw, hf]

theorem updateSimTotals_fields (m : Monitor R) (event : Event R) :
    (updateSimTotals m event).isHomeScreenShowing = m.isHomeScreenShowing ∧
    (updateSimTotals m event).currentScreenIndex = m.currentScreenIndex ∧
    (updateSimTotals m event).engagementMetrics.screens = m.engagementMetrics.screens ∧
    (updateSimTotals m event).firstActive = m.firstActive ∧
    (updateSimTotals m event).activeSecondStartTime = m.activeSecondStartTime ∧
    (updateSimTotals m event).engagementMetrics.sim.startOfData =
      m.engagementMetrics.sim.startOfData ∧
    (updateSimTotals m event).engagementMetrics.sim.currentTimeStamp = some event.time ∧
    (updateSimTotals m event).engagementMetrics.sim.totalSecondsOfSimRun =
      toFixedNumber (event.time - orElse m.engagementMetrics.sim.startOfData event.time) ∧
    (updateSimTotals m event).engagementMetrics.sim.totalSecondsActive =
      m.engagementMetrics.sim.totalSecondsActive :=
  ⟨rfl, rfl, rfl, rfl, rfl, rfl, rfl, rfl, rfl⟩

/-- Normal form of one completed call of the listener. -/
theorem listener_ok [Add R] {env : Env} {sim : Sim} {m m' : Monitor R} {event : Event R}
    (h : listener env sim m event = Except.ok m') :
    m'.isHomeScreenShowing = homeAfterUpdate env sim m event ∧
    m'.currentScreenIndex = indexAfterUpdate env sim m event ∧
    m'.firstActive = (m.firstActive || isActiveEvent env event) ∧
    m'.activeSecondStartTime = windowAfter env m event ∧
    m'.engagementMetrics.sim.startOfData = startOfDataAfter env m event ∧
    m'.engagementMetrics.sim.currentTimeStamp = some event.time ∧
    m'.engagementMetrics.sim.totalSecondsOfSimRun =
      toFixedNumber (event.time - orElse (startOfDataAfter env m event) event.time) ∧
    m'.engagementMetrics.sim.totalSecondsActive =
      m.engagementMetrics.sim.totalSecondsActive +
        (if closesActiveSecond m event then 1 else 0) ∧
    (∀ i, screenAt m'.engagementMetrics.screens i =
      (screenAt m.engagementMetrics.screens i).map (entryAfter env sim m event i)) ∧
    (homeAfterUpdate env sim m event = false →
      closesActiveSecond m event = true ∨ isStepSimulation sim event = true →
      ∃ entry, screenAt m.engagementMetrics.screens (indexAfterUpdate env sim m event)
        = some entry) := by
  unfold listener at h
  cases h1 : onShowHomeScreen env sim m event with
  | error x => rw [h1] at h; cases h
  | ok m1 =>
  rw [h1] at h
  simp only [Except.bind] at h
  cases h2 : onScreenIndex env sim m1 event with
  | error x => rw [h2] at h; cases h
  | ok m2 =>
  rw [h2] at h
  simp only [Except.bind] at h
  cases h3 : closeActiveSecond m2 event with
  | error x => rw [h3] at h; cases h
  | ok m3 =>
  rw [h3] at h
  simp only [Except.bind] at h
  obtain ⟨a1, a2, a3, a4, a5, a6⟩ := onShowHomeScreen_ok h1
  obtain ⟨b1, b2, b3, b4, b5, b6⟩ := onScreenIndex_ok h2
  obtain ⟨c1, c2, c3, c4, c5, c6, c7⟩ := closeActiveSecond_ok h3
  obtain ⟨⟨d1, d2, d3, d4, d5⟩, d6, d7⟩ := addScreenRun_ok h
  have hidx : indexAfterUpdate env sim m1 event = indexAfterUpdate env sim m event := by
    simp [indexAfterUpdate, a5]
  have hcl : closesActiveSecond m2 event = closesActiveSecond m event :=
    closesActiveSecond_congr event (b3.trans a3)
  have hhome2 : m2.isHomeScreenShowing = homeAfterUpdate env sim m event := b4.trans a4
  have hidx2 : m2.currentScreenIndex = indexAfterUpdate env sim m event := b5.trans hidx
  have hsome : ∀ i, (∃ entry, screenAt m2.engagementMetrics.screens i = some entry) →
      ∃ entry, screenAt m.engagementMetrics.screens i = some entry := by
    intro i ⟨entry, he⟩
    rw [b6, a6] at he
    cases hm : screenAt m.engagementMetrics.screens i with
    | none => simp [hm] at he
    | some x => exact ⟨x, rfl⟩
  obtain ⟨e1, e2, e3, e4, e5, e6, e7⟩ := onActiveEvent_fields env m3 event
  obtain ⟨f1, f2, f3, f4, f5, f6, f7, f8, f9⟩ :=
    updateSimTotals_fields (onActiveEvent env m3 event) event
  have hsd : startOfDataAfter env m3 event = startOfDataAfter env m event := by
    simp [startOfDataAfter, c1, c2, b1, b2, a1, a2]
  refine ⟨?_, ?_, ?_, ?_, ?_, ?_, ?_, ?_, ?_, ?_⟩
  · rw [d4, f1, e1, c4, hhome2]
  · rw [d5, f2, e2, c5, hidx2]
  · rw [d2, f4, e4, c2, b2, a2]
  · rw [d3, f5, e5, c3, hcl, b3, a3]
    rfl
  · rw [d1, f6, e6, hsd]
  · rw [d1, f7]
  · rw [d1, f8, e6, hsd]
  · rw [d1, f9, e7, c1, hcl, b1, a1]
  · intro i
    rw [d7, f3, e3, c7, b6, a6, f1, e1, f2, e2, c4, c5, hcl, hhome2, hidx2, hidx, a4]
    simp only [Option.map_map]
    rfl
  · intro hh hor
    apply hsome
    rw [← hidx2]
    rcases hor with hor | hor
    · exact c6 (hcl.trans hor) (hhome2.trans hh)
    · have := d6 (by rw [f1, e1, c4, hhome2, hh]) hor
      rw [f3, e3, f2, e2, c5] at this
      obtain ⟨entry, he⟩ := this
      rw [c7] at he
      cases hm : screenAt m2.engagementMetrics.screens m2.currentScreenIndex with
      | none => simp [hm] at he
      | some x => exact ⟨x, rfl⟩

theorem updateScreenStartTime_completes {m : Monitor R} (event : Event R)
    (h : m.isHomeScreenShowing = false →
      ∃ entry, screenAt m.engagementMetrics.screens m.currentScreenIndex = some entry) :
    ∃ m', updateScreenStartTime m event = Except.ok m' := by
  unfold updateScreenStartTime
  cases hh : m.isHomeScreenShowing
  · obtain ⟨entry, he⟩ := h hh
    simpa using withCurrentScreen_of_some he
  · exact ⟨m, by simp⟩

/-- The listener returns normally whenever every screen entry it dereferences exists. -/
theorem listener_completes [Add R] (env : Env) (sim : Sim) (m : Monitor R) (event : Event R)
    (hhome : isShowHomeScreenChange env sim event = true → event.data.newValueBool = false →
      ∃ entry, screenAt m.engagementMetrics.screens m.currentScreenIndex = some entry)
    (hindex : homeAfterUpdate env sim m event = false →
      isScreenIndexChange env sim event = true ∨ closesActiveSecond m event = true ∨
        isStepSimulation sim event = true →
      ∃ entry, screenAt m.engagementMetrics.screens (indexAfterUpdate env sim m event)
        = some entry) :
    ∃ m', listener env sim m event = Except.ok m' := by
  have keep : ∀ {l l' : List (ScreenMetrics R)} {g : Int → ScreenMetrics R → ScreenMetrics R},
      (∀ i, screenAt l' i = (screenAt l i).map (g i)) → ∀ i,
      (∃ entry, screenAt l i = some entry) → ∃ entry, screenAt l' i = some entry := by
    intro l l' g hg i ⟨entry, he⟩
    exact ⟨g i entry, by rw [hg, he]; rfl⟩
  -- lines 82-86
  have s1 : ∃ m1, onShowHomeScreen env sim m event = Except.ok m1 := by
    unfold onShowHomeScreen
    cases hc : isShowHomeScreenChange env sim event
    · exact ⟨m, by simp⟩
    · simp only [if_true]
      apply updateScreenStartTime_completes
      intro hb
      exact hhome hc hb
  obtain ⟨m1, h1⟩ := s1
  obtain ⟨a1, a2, a3, a4, a5, a6⟩ := onShowHomeScreen_ok h1
  have hidx : indexAfterUpdate env sim m1 event = indexAfterUpdate env sim m event := by
    simp [indexAfterUpdate, a5]
  -- lines 88-92
  have s2 : ∃ m2, onScreenIndex env sim m1 event = Except.ok m2 := by
    unfold onScreenIndex
    cases hc : isScreenIndexChange env sim event
    · exact ⟨m1, by simp⟩
    · simp only [if_true]
      apply updateScreenStartTime_completes
      intro hb
      have hb' : homeAfterUpdate env sim m event = false := a4.symm.trans hb
      have := keep a6 _ (hindex hb' (Or.inl hc))
      simpa [indexAfterUpdate, hc] using this
  obtain ⟨m2, h2⟩ := s2
  obtain ⟨b1, b2, b3, b4, b5, b6⟩ := onScreenIndex_ok h2
  have hcl : closesActiveSecond m2 event = closesActiveSecond m event :=
    closesActiveSecond_congr event (b3.trans a3)
  have hhome2 : m2.isHomeScreenShowing = homeAfterUpdate env sim m event := b4.trans a4
  have hidx2 : m2.currentScreenIndex = indexAfterUpdate env sim m event := b5.trans hidx
  -- lines 94-105
  have s3 : ∃ m3, closeActiveSecond m2 event = Except.ok m3 := by
    unfold closeActiveSecond
    cases hw : m2.activeSecondStartTime with
    | none => exact ⟨m2, rfl⟩
    | some start =>
      simp only
      by_cases hgt : event.time - start > 1000
      · have hc : closesActiveSecond m event = true := by
          rw [← hcl]; simp [closesActiveSecond, hw, hgt]
        simp only [hgt, if_true]
        cases hh : (countSimActiveSecond m2).isHomeScreenShowing
        · have hb' : homeAfterUpdate env sim m event = false := hhome2.symm.trans hh
          have hex := keep b6 _ (keep a6 _ (hindex hb' (Or.inr (Or.inl hc))))
          rw [← hidx2] at hex
          obtain ⟨entry, he⟩ := hex
          obtain ⟨m3, h3⟩ := withCurrentScreen_of_some (m := countSimActiveSecond m2)
            (f := countActiveSecond) he
          simp only [Bool.not_false, if_true, h3]
          exact ⟨_, rfl⟩
        · simp only [Bool.not_true, Bool.false_eq_true, if_false]
          exact ⟨_, rfl⟩
      · simp only [hgt, if_false]
        exact ⟨m2, rfl⟩
  obtain ⟨m3, h3⟩ := s3
  obtain ⟨c1, c2, c3, c4, c5, c6, c7⟩ := closeActiveSecond_ok h3
  obtain ⟨e1, e2, e3, -⟩ := onActiveEvent_fields env m3 event
  obtain ⟨f1, f2, f3, -⟩ := updateSimTotals_fields (onActiveEvent env m3 event) event
  -- lines 125-127
  have s4 : ∃ m4, addScreenRun sim (updateSimTotals (onActiveEvent env m3 event) event) event
      = Except.ok m4 := by
    unfold addScreenRun
    by_cases hc : (!(updateSimTotals (onActiveEvent env m3 event) event).isHomeScreenShowing
        && isStepSimulation sim event) = true
    · simp only [hc, if_true]
      simp only [Bool.and_eq_true, Bool.not_eq_true'] at hc
      have hb' : homeAfterUpdate env sim m event = false := by
        rw [← hhome2, ← c4, ← e1, ← f1]; exact hc.1
      have hex := keep c7 _ (keep b6 _ (keep a6 _ (hindex hb' (Or.inr (Or.inr hc.2)))))
      rw [← hidx2, ← c5, ← e2, ← f2, ← e3, ← f3] at hex
      obtain ⟨entry, he⟩ := hex
      exact withCurrentScreen_of_some he
    · simp only [hc, if_false]
      exact ⟨_, rfl⟩
  obtain ⟨m4, h4⟩ := s4
  refine ⟨m4, ?_⟩
  unfold listener
  rw [h1]; simp only [Except.bind]
  rw [h2]; simp only [Except.bind]
  rw [h3]; simp only [Except.bind]
  exact h4

/-! ## One call of the listener -/

theorem entryAfter_totalSecondsActive [Add R] (env : Env) (sim : Sim) (m : Monitor R)
    (event : Event R) (i : Int) (s : ScreenMetrics R) :
    (entryAfter env sim m event i s).totalSecondsActive =
      if closesActiveSecond m event = true ∧ homeAfterUpdate env sim m event = false ∧
          i = indexAfterUpdate env sim m event
      then s.totalSecondsActive + 1 else s.totalSecondsActive := by
  unfold entryAfter
  simp only [stampFirstUse, countActiveSecond, addRunSeconds]
  repeat' split
  all_goals rfl

theorem entryAfter_totalSecondsOfScreenRun [Add R] (env : Env) (sim : Sim) (m : Monitor R)
    (event : Event R) (i : Int) (s : ScreenMetrics R) :
    (entryAfter env sim m event i s).totalSecondsOfScreenRun =
      if homeAfterUpdate env sim m event = false ∧ isStepSimulation sim event = true ∧
          i = indexAfterUpdate env sim m event
      then s.totalSecondsOfScreenRun + event.data.dt else s.totalSecondsOfScreenRun := by
  unfold entryAfter
  simp only [stampFirstUse, countActiveSecond, addRunSeconds]
  repeat' split
  all_goals rfl

theorem entryAfter_fixed [Add R] (env : Env) (sim : Sim) (m : Monitor R)
    (event : Event R) (i : Int) (s : ScreenMetrics R) :
    (entryAfter env sim m event i s).tandemName = s.tandemName ∧
    (entryAfter env sim m event i s).timeStampOfLastUse = s.timeStampOfLastUse := by
  unfold entryAfter
  simp only [stampFirstUse, countActiveSecond, addRunSeconds]
  repeat' split
  all_goals exact ⟨rfl, rfl⟩

theorem orElse_orElse (value : Option Int) (time : Int) :
    orElse (some (orElse value time)) time = orElse value time := by
  unfold orElse
  cases value with
  | none => simp
  | some v => by_cases hv : v = 0 <;> simp [hv]

theorem firstUse_of_writes [Add R] (c1 c2 c3 c4 : Prop) [Decidable c1] [Decidable c2]
    [Decidable c3] [Decidable c4] (time : Int) (dt : R) (s : ScreenMetrics R) :
    (if c4 then addRunSeconds dt
        (if c3 then countActiveSecond
          (if c2 then stampFirstUse time (if c1 then stampFirstUse time s else s)
            else (if c1 then stampFirstUse time s else s))
          else (if c2 then stampFirstUse time (if c1 then stampFirstUse time s else s)
            else (if c1 then stampFirstUse time s else s)))
      else (if c3 then countActiveSecond
          (if c2 then stampFirstUse time (if c1 then stampFirstUse time s else s)
            else (if c1 then stampFirstUse time s else s))
          else (if c2 then stampFirstUse time (if c1 then stampFirstUse time s else s)
            else (if c1 then stampFirstUse time s else s)))).timeStampOfFirstUse =
      if c1 ∨ c2 then some (orElse s.timeStampOfFirstUse time) else s.timeStampOfFirstUse := by
  have e1 : ∀ (t : Int) (x : ScreenMetrics R),
      (stampFirstUse t x).timeStampOfFirstUse = some (orElse x.timeStampOfFirstUse t) :=
    fun _ _ => rfl
  have e2 : ∀ x : ScreenMetrics R,
      (countActiveSecond x).timeStampOfFirstUse = x.timeStampOfFirstUse := fun _ => rfl
  have e3 : ∀ (d : R) (x : ScreenMetrics R),
      (addRunSeconds d x).timeStampOfFirstUse = x.timeStampOfFirstUse := fun _ _ => rfl
  by_cases h1 : c1 <;> by_cases h2 : c2 <;> by_cases h3 : c3 <;> by_cases h4 : c4 <;>
    simp only [h1, h2, h3, h4, if_true, if_false, or_true, true_or, or_self, e1, e2, e3,
      orElse_orElse]

theorem entryAfter_timeStampOfFirstUse [Add R] (env : Env) (sim : Sim) (m : Monitor R)
    (event : Event R) (i : Int) (s : ScreenMetrics R) :
    (entryAfter env sim m event i s).timeStampOfFirstUse =
      if (isShowHomeScreenChange env sim event = true ∧ event.data.newValueBool = false ∧
            i = m.currentScreenIndex) ∨
          (isScreenIndexChange env sim event = true ∧ homeAfterUpdate env sim m event = false ∧
            i = indexAfterUpdate env sim m event)
      then some (orElse s.timeStampOfFirstUse event.time) else s.timeStampOfFirstUse :=
  firstUse_of_writes _ _ _ _ event.time event.data.dt s

/-- C1. Closing the active second (lines 94-117). For every state and event on which the listener
returns: if an active second is open with start `start` and `event.time - start > 1000`, the sim
counter `totalSecondsActive` grows by exactly 1; a screen counter `totalSecondsActive` grows by
exactly 1 precisely for the screen that is current after lines 82-92 and only when the home screen
is not showing after those lines (that screen then exists), every other screen counter is
unchanged; and `activeSecondStartTime` ends `null` unless the event is an active event, in which
case it ends at `event.time`. If no active second is open, or `event.time - start ≤ 1000`, no
`totalSecondsActive` counter changes. -/
theorem listener_closes_active_second [Add R] (env : Env) (sim : Sim) (m m' : Monitor R)
    (event : Event R) (h : listener env sim m event = Except.ok m') :
    (∀ start, m.activeSecondStartTime = some start → event.time - start > 1000 →
      simActive m' = simActive m + 1 ∧
      (∀ i, screenActiveAt m' i = (screenActiveAt m i).map fun n =>
        if i = indexAfterUpdate env sim m event ∧ homeAfterUpdate env sim m event = false
        then n + 1 else n) ∧
      (homeAfterUpdate env sim m event = false →
        ∃ n, screenActiveAt m (indexAfterUpdate env sim m event) = some n ∧
          screenActiveAt m' (indexAfterUpdate env sim m event) = some (n + 1)) ∧
      m'.activeSecondStartTime = if isActiveEvent env event then some event.time else none) ∧
    ((m.activeSecondStartTime = none ∨
        ∃ start, m.activeSecondStartTime = some start ∧ event.time - start ≤ 1000) →
      simActive m' = simActive m ∧ ∀ i, screenActiveAt m' i = screenActiveAt m i) := by
  obtain ⟨-, -, -, hw, -, -, -, ha, hs, hex⟩ := listener_ok h
  have hsa : ∀ i, screenActiveAt m' i = (screenActiveAt m i).map fun n =>
      if closesActiveSecond m event = true ∧ homeAfterUpdate env sim m event = false ∧
          i = indexAfterUpdate env sim m event
      then n + 1 else n := by
    intro i
    unfold screenActiveAt
    rw [hs i]
    cases screenAt m.engagementMetrics.screens i with
    | none => rfl
    | some s =>
      simp only [Option.map_some']
      rw [entryAfter_totalSecondsActive]
  constructor
  · intro start hstart hgt
    have hc : closesActiveSecond m event = true := by
      simp [closesActiveSecond, hstart, hgt]
    have hall : ∀ i, screenActiveAt m' i = (screenActiveAt m i).map fun n =>
        if i = indexAfterUpdate env sim m event ∧ homeAfterUpdate env sim m event = false
        then n + 1 else n := by
      intro i
      rw [hsa i]
      congr 1
      funext n
      simp only [hc, true_and]
      by_cases hi : i = indexAfterUpdate env sim m event <;>
        by_cases hh : homeAfterUpdate env sim m event = false <;> simp [hi, hh]
    refine ⟨by simp [simActive, ha, hc], hall, ?_, ?_⟩
    · intro hh
      obtain ⟨entry, he⟩ := hex hh (Or.inl hc)
      refine ⟨entry.totalSecondsActive, by simp [screenActiveAt, he], ?_⟩
      rw [hall]
      simp [screenActiveAt, he, hh]
    · rw [hw]
      simp only [windowAfter, hc, if_true]
  · intro hno
    have hc : closesActiveSecond m event = false := by
      rcases hno with hno | ⟨start, hstart, hle⟩
      · simp [closesActiveSecond, hno]
      · simp [closesActiveSecond, hstart, hle]
    refine ⟨by simp [simActive, ha, hc], ?_⟩
    intro i
    rw [hsa i]
    simp [hc]
/-- Witness for C1: on the first screen with an active second open since 200, a pointer press
at 1300 closes it and opens the next one. -/
theorem listener_closes_active_second_witness :
    listener demoEnv demoSim demoOpen (pointerDown 1300) = Except.ok demoReopened ∧
    simActive demoReopened = simActive demoOpen + 1 ∧
    screenActiveAt demoReopened 0 = some 1 ∧
    demoReopened.activeSecondStartTime = some 1300 :=
  ⟨rfl,
    ((listener_closes_active_second demoEnv demoSim demoOpen demoReopened (pointerDown 1300)
      rfl).1 200 rfl (by decide)).1,
    rfl, rfl⟩

theorem run_cons_ok [Add R] {env : Env} {sim : Sim} {m m' : Monitor R} {event : Event R}
    {rest : List (Event R)} (h : run env sim m (event :: rest) = Except.ok m') :
    ∃ m1, listener env sim m event = Except.ok m1 ∧ run env sim m1 rest = Except.ok m' := by
  unfold run at h
  cases h1 : listener env sim m event with
  | error x => rw [h1] at h; cases h
  | ok m1 => rw [h1] at h; exact ⟨m1, rfl, h⟩

theorem run_nil_ok [Add R] {env : Env} {sim : Sim} {m m' : Monitor R}
    (h : run env sim m [] = Except.ok m') : m' = m := by
  unfold run at h
  injection h with h
  exact h.symm

theorem run_append_ok [Add R] {env : Env} {sim : Sim} {m m' : Monitor R}
    {first rest : List (Event R)} (h : run env sim m (first ++ rest) = Except.ok m') :
    ∃ m1, run env sim m first = Except.ok m1 ∧ run env sim m1 rest = Except.ok m' := by
  induction first generalizing m with
  | nil => exact ⟨m, rfl, h⟩
  | cons event tail ih =>
    obtain ⟨m1, h1, h2⟩ := run_cons_ok h
    obtain ⟨m2, h3, h4⟩ := ih h2
    refine ⟨m2, ?_, h4⟩
    show (listener env sim m event).bind (fun m1 => run env sim m1 tail) = Except.ok m2
    rw [h1]
    exact h3

/-- The `totalSecondsActive` counters and the open active second after one completed call. -/
theorem listener_active [Add R] {env : Env} {sim : Sim} {m m' : Monitor R} {event : Event R}
    (h : listener env sim m event = Except.ok m') :
    m'.activeSecondStartTime = windowAfter env m event ∧
    simActive m' = simActive m + (if closesActiveSecond m event then 1 else 0) ∧
    ∀ i, screenActiveAt m' i = (screenActiveAt m i).map fun n =>
      if closesActiveSecond m event = true ∧ homeAfterUpdate env sim m event = false ∧
          i = indexAfterUpdate env sim m event
      then n + 1 else n := by
  obtain ⟨-, -, -, hw, -, -, -, ha, hs, -⟩ := listener_ok h
  refine ⟨hw, ha, ?_⟩
  intro i
  unfold screenActiveAt
  rw [hs i]
  cases screenAt m.engagementMetrics.screens i with
  | none => rfl
  | some s =>
    simp only [Option.map_some']
    rw [entryAfter_totalSecondsActive]

/-- A call that closes no active second changes no `totalSecondsActive` counter. -/
theorem listener_active_unchanged [Add R] {env : Env} {sim : Sim} {m m' : Monitor R}
    {event : Event R} (h : listener env sim m event = Except.ok m')
    (hc : closesActiveSecond m event = false) :
    simActive m' = simActive m ∧ ∀ i, screenActiveAt m' i = screenActiveAt m i := by
  obtain ⟨-, ha, hs⟩ := listener_active h
  refine ⟨by simp [ha, hc], ?_⟩
  intro i
  rw [hs i]
  simp [hc]

/-- C2. With no active second open, an active event at `T` followed by an event at `T + 999`
that is not active leaves the sim counter `totalSecondsActive` and every screen counter
`totalSecondsActive` at their values before the event at `T`; a further event at `T + 1001`
raises the sim counter by exactly 1. -/
theorem active_second_closes_after_1000ms [Add R] (env : Env) (sim : Sim)
    (m m2 m3 : Monitor R) (a b c : Event R) (T : Int)
    (hopen : m.activeSecondStartTime = none)
    (ha : isActiveEvent env a = true) (hat : a.time = T)
    (hb : isActiveEvent env b = false) (hbt : b.time = T + 999)
    (hct : c.time = T + 1001)
    (h2 : run env sim m [a, b] = Except.ok m2)
    (h3 : listener env sim m2 c = Except.ok m3) :
    simActive m2 = simActive m ∧
    (∀ i, screenActiveAt m2 i = screenActiveAt m i) ∧
    simActive m3 = simActive m2 + 1 := by
  obtain ⟨m1, h1, h2'⟩ := run_cons_ok h2
  obtain ⟨m2', h2'', hnil⟩ := run_cons_ok h2'
  have := run_nil_ok hnil
  subst this
  have hc1 : closesActiveSecond m a = false := by simp [closesActiveSecond, hopen]
  obtain ⟨hw1, -, -⟩ := listener_active h1
  have hw1' : m1.activeSecondStartTime = some T := by
    rw [hw1]; simp [windowAfter, hc1, ha, hopen, hat]
  have hc2 : closesActiveSecond m1 b = false := by
    simp [closesActiveSecond, hw1', hbt]
  obtain ⟨hw2, -, -⟩ := listener_active h2''
  have hw2' : m2.activeSecondStartTime = some T := by
    rw [hw2]; simp [windowAfter, hc2, hb, hw1']
  have hc3 : closesActiveSecond m2 c = true := by
    simp [closesActiveSecond, hw2', hct]
  obtain ⟨s1, t1⟩ := listener_active_unchanged h1 hc1
  obtain ⟨s2, t2⟩ := listener_active_unchanged h2'' hc2
  obtain ⟨-, s3, -⟩ := listener_active h3
  refine ⟨s2.trans s1, fun i => (t2 i).trans (t1 i), ?_⟩
  rw [s3]; simp [hc3]

/-- Witness for C2: a pointer press at 0, a step at 999 and a step at 1001 on a fresh monitor. -/
theorem active_second_closes_after_1000ms_witness :
    run demoEnv demoSim demoFresh [pointerDown 0, stepSimulation 999 16] = Except.ok demoWaiting ∧
    listener demoEnv demoSim demoWaiting (stepSimulation 1001 16) = Except.ok demoCounted ∧
    simActive demoWaiting = simActive demoFresh ∧
    simActive demoCounted = simActive demoWaiting + 1 :=
  have h := active_second_closes_after_1000ms demoEnv demoSim demoFresh demoWaiting demoCounted
    (pointerDown 0) (stepSimulation 999 16) (stepSimulation 1001 16) 0
    rfl rfl rfl rfl rfl rfl rfl rfl
  ⟨rfl, rfl, h.1, h.2.2⟩

/-! ## Streams of events -/

/-- With no active second open, a stream without active events opens none and changes no
`totalSecondsActive` counter. -/
theorem run_idle [Add R] {env : Env} {sim : Sim} {m m' : Monitor R} {events : List (Event R)}
    (hopen : m.activeSecondStartTime = none)
    (hidle : ∀ e ∈ events, isActiveEvent env e = false)
    (h : run env sim m events = Except.ok m') :
    m'.activeSecondStartTime = none ∧ simActive m' = simActive m ∧
    ∀ i, screenActiveAt m' i = screenActiveAt m i := by
  induction events generalizing m with
  | nil =>
    have := run_nil_ok h
    subst this
    exact ⟨hopen, rfl, fun _ => rfl⟩
  | cons event rest ih =>
    obtain ⟨m1, h1, h2⟩ := run_cons_ok h
    have hc : closesActiveSecond m event = false := by simp [closesActiveSecond, hopen]
    have hi : isActiveEvent env event = false := hidle event (List.mem_cons_self _ _)
    obtain ⟨hw, -, -⟩ := listener_active h1
    have hw1 : m1.activeSecondStartTime = none := by
      rw [hw]; simp [windowAfter, hc, hi, hopen]
    obtain ⟨s1, t1⟩ := listener_active_unchanged h1 hc
    obtain ⟨r1, r2, r3⟩ := ih hw1 (fun e he => hidle e (List.mem_cons_of_mem _ he)) h2
    exact ⟨r1, r2.trans s1, fun i => (r3 i).trans (t1 i)⟩

/-- With an active second open since `start`, a stream without active events raises the sim
counter by one if it holds an event more than 1000 ms after `start`, and not at all otherwise. -/
theorem run_open [Add R] {env : Env} {sim : Sim} {m m' : Monitor R} {events : List (Event R)}
    {start : Int} (hopen : m.activeSecondStartTime = some start)
    (hidle : ∀ e ∈ events, isActiveEvent env e = false)
    (h : run env sim m events = Except.ok m') :
    ((∃ e ∈ events, e.time > start + 1000) → simActive m' = simActive m + 1) ∧
    ((∀ e ∈ events, e.time ≤ start + 1000) →
      simActive m' = simActive m ∧ m'.activeSecondStartTime = some start) := by
  induction events generalizing m with
  | nil =>
    have := run_nil_ok h
    subst this
    exact ⟨fun ⟨e, he, _⟩ => absurd he (List.not_mem_nil e), fun _ => ⟨rfl, hopen⟩⟩
  | cons event rest ih =>
    obtain ⟨m1, h1, h2⟩ := run_cons_ok h
    have hi : isActiveEvent env event = false := hidle event (List.mem_cons_self _ _)
    have hrest : ∀ e ∈ rest, isActiveEvent env e = false :=
      fun e he => hidle e (List.mem_cons_of_mem _ he)
    obtain ⟨hw, ha, -⟩ := listener_active h1
    by_cases hgt : event.time > start + 1000
    · have hc : closesActiveSecond m event = true := by
        simp only [closesActiveSecond, hopen, decide_eq_true_eq]; omega
      have hw1 : m1.activeSecondStartTime = none := by
        rw [hw]; simp [windowAfter, hc, hi]
      obtain ⟨-, r2, -⟩ := run_idle hw1 hrest h2
      constructor
      · intro _
        rw [r2, ha]; simp [hc]
      · intro hall
        have := hall event (List.mem_cons_self _ _)
        omega
    · have hc : closesActiveSecond m event = false := by
        simp only [closesActiveSecond, hopen, decide_eq_false_iff_not]; omega
      have hw1 : m1.activeSecondStartTime = some start := by
        rw [hw]; simp [windowAfter, hc, hi, hopen]
      have ha1 : simActive m1 = simActive m := by rw [ha]; simp [hc]
      obtain ⟨r1, r2⟩ := ih hw1 hrest h2
      constructor
      · rintro ⟨e, he, hlate⟩
        rw [← ha1]
        apply r1
        rcases List.mem_cons.mp he with rfl | he'
        · exact absurd hlate hgt
        · exact ⟨e, he', hlate⟩
      · intro hall
        rw [← ha1]
        exact r2 (fun e he => hall e (List.mem_cons_of_mem _ he))

/-- C3. An active event inside an open active second neither restarts nor extends it. With no
active second open, active events at `T` and `T + 500` leave `activeSecondStartTime = T` and the
sim counter `totalSecondsActive` untouched; over any continuation without further active events
the sim counter grows by exactly 1 in total as soon as the continuation holds an event later
than `T + 1000`, and by nothing before that. -/
theorem active_event_inside_open_second [Add R] (env : Env) (sim : Sim)
    (m m2 m3 : Monitor R) (a b : Event R) (T : Int) (rest : List (Event R))
    (hopen : m.activeSecondStartTime = none)
    (ha : isActiveEvent env a = true) (hat : a.time = T)
    (hb : isActiveEvent env b = true) (hbt : b.time = T + 500)
    (hrest : ∀ e ∈ rest, isActiveEvent env e = false)
    (h2 : run env sim m [a, b] = Except.ok m2)
    (h3 : run env sim m2 rest = Except.ok m3) :
    m2.activeSecondStartTime = some T ∧
    simActive m2 = simActive m ∧
    ((∃ e ∈ rest, e.time > T + 1000) → simActive m3 = simActive m + 1) ∧
    ((∀ e ∈ rest, e.time ≤ T + 1000) → simActive m3 = simActive m) := by
  obtain ⟨m1, h1, h2'⟩ := run_cons_ok h2
  obtain ⟨m2', h2'', hnil⟩ := run_cons_ok h2'
  have := run_nil_ok hnil
  subst this
  have hc1 : closesActiveSecond m a = false := by simp [closesActiveSecond, hopen]
  obtain ⟨hw1, -, -⟩ := listener_active h1
  have hw1' : m1.activeSecondStartTime = some T := by
    rw [hw1]; simp [windowAfter, hc1, ha, hopen, hat]
  have hc2 : closesActiveSecond m1 b = false := by
    simp [closesActiveSecond, hw1', hbt]
  obtain ⟨hw2, -, -⟩ := listener_active h2''
  have hw2' : m2.activeSecondStartTime = some T := by
    rw [hw2]; simp [windowAfter, hc2, hb, hw1']
  obtain ⟨s1, -⟩ := listener_active_unchanged h1 hc1
  obtain ⟨s2, -⟩ := listener_active_unchanged h2'' hc2
  obtain ⟨r1, r2⟩ := run_open hw2' hrest h3
  refine ⟨hw2', s2.trans s1, ?_, ?_⟩
  · intro hlate
    rw [r1 hlate, s2, s1]
  · intro hall
    rw [(r2 hall).1, s2, s1]

/-- Witness for C3: pointer presses at 0 and 500 on a fresh monitor, then a step at 1200. -/
theorem active_event_inside_open_second_witness :
    run demoEnv demoSim demoFresh [pointerDown 0, pointerDown 500] = Except.ok demoPressedTwice ∧
    run demoEnv demoSim demoPressedTwice [stepSimulation 1200 16] = Except.ok demoOneSecond ∧
    demoPressedTwice.activeSecondStartTime = some 0 ∧
    simActive demoOneSecond = simActive demoFresh + 1 :=
  have h := active_event_inside_open_second demoEnv demoSim demoFresh demoPressedTwice
    demoOneSecond (pointerDown 0) (pointerDown 500) 0 [stepSimulation 1200 16]
    rfl rfl rfl rfl rfl (by decide) rfl rfl
  ⟨rfl, rfl, h.1, h.2.2.1 ⟨stepSimulation 1200 16, List.mem_singleton.mpr rfl, by decide⟩⟩

theorem mem_screens_iff (l : List (ScreenMetrics R)) (entry : ScreenMetrics R) :
    entry ∈ l ↔ ∃ i : Int, screenAt l i = some entry := by
  constructor
  · intro h
    obtain ⟨n, hn⟩ := List.mem_iff_getElem?.mp h
    exact ⟨(n : Int), by simp [screenAt, hn]⟩
  · rintro ⟨i, hi⟩
    unfold screenAt at hi
    split at hi
    · exact List.mem_iff_getElem?.mpr ⟨_, hi⟩
    · cases hi

theorem construct_screenActiveAt [Zero R] (sim : Sim) (i : Int) (n : Nat)
    (h : screenActiveAt (construct sim : Monitor R) i = some n) : n = 0 := by
  unfold screenActiveAt screenAt construct at h
  split at h
  · simp only [List.getElem?_map] at h
    cases hs : sim.screens[i.toNat]? with
    | none => simp [hs] at h
    | some x => simp [hs] at h; exact h.symm
  · simp at h

/-- C4. From a freshly constructed monitor, a stream without active events leaves the sim counter
`totalSecondsActive` and every screen counter `totalSecondsActive` at 0 after each of its
initial segments. -/
theorem no_active_event_no_active_second [Add R] [Zero R] (env : Env) (sim : Sim)
    (first rest : List (Event R)) (m' : Monitor R)
    (hidle : ∀ e ∈ first ++ rest, isActiveEvent env e = false)
    (h : run env sim (construct sim) first = Except.ok m') :
    simActive m' = 0 ∧ ∀ entry ∈ m'.engagementMetrics.screens, entry.totalSecondsActive = 0 := by
  obtain ⟨-, r2, r3⟩ := run_idle (m := construct sim) rfl
    (fun e he => hidle e (List.mem_append_left _ he)) h
  refine ⟨r2, ?_⟩
  intro entry he
  obtain ⟨i, hi⟩ := (mem_screens_iff _ _).mp he
  have : screenActiveAt m' i = some entry.totalSecondsActive := by
    simp [screenActiveAt, hi]
  rw [r3 i] at this
  exact construct_screenActiveAt sim i _ this

/-- Witness for C4: two steps around a change to the first screen, no active event. -/
theorem no_active_event_no_active_second_witness :
    run demoEnv demoSim demoFresh [stepSimulation 16 16, showHomeScreenChanged 20 false]
      = Except.ok demoIdle ∧
    simActive demoIdle = 0 :=
  ⟨rfl,
    (no_active_event_no_active_second demoEnv demoSim
      [stepSimulation 16 16, showHomeScreenChanged 20 false] [stepSimulation 40 16] demoIdle
      (by decide) rfl).1⟩

/-! ## Screens while the home screen is showing, and run time -/

theorem screens_ext {l l' : List (ScreenMetrics R)}
    (h : ∀ i : Int, screenAt l' i = screenAt l i) : l' = l := by
  apply List.ext_getElem?
  intro n
  have := h (n : Int)
  simpa [screenAt] using this

theorem entryAfter_home_showing [Add R] (env : Env) (sim : Sim) (m : Monitor R)
    (event : Event R) (i : Int) (s : ScreenMetrics R)
    (hh : homeAfterUpdate env sim m event = true) :
    entryAfter env sim m event i s = s := by
  have h1 : ¬ (isShowHomeScreenChange env sim event = true ∧ event.data.newValueBool = false ∧
      i = m.currentScreenIndex) := by
    rintro ⟨hc, hb, -⟩
    simp [homeAfterUpdate, hc, hb] at hh
  unfold entryAfter
  simp [hh, h1]

/-- The per-screen run time after one completed call. -/
theorem listener_run [Add R] {env : Env} {sim : Sim} {m m' : Monitor R} {event : Event R}
    (h : listener env sim m event = Except.ok m') (i : Int) :
    screenRunAt m' i = (screenRunAt m i).map fun r =>
      if homeAfterUpdate env sim m event = false ∧ isStepSimulation sim event = true ∧
          i = indexAfterUpdate env sim m event
      then r + event.data.dt else r := by
  obtain ⟨-, -, -, -, -, -, -, -, hs, -⟩ := listener_ok h
  unfold screenRunAt
  rw [hs i]
  cases screenAt m.engagementMetrics.screens i with
  | none => rfl
  | some s =>
    simp only [Option.map_some']
    rw [entryAfter_totalSecondsOfScreenRun]

/-- C5. While the home screen is showing no screen accrues anything. For every state and event
such that the home screen is showing after lines 82-86, the listener returns normally, the whole
list of screen entries is unchanged (in particular every screen's `totalSecondsActive` and
`totalSecondsOfScreenRun`, also for a `stepSimulation` event and also when the event closes an
active second), and an event that closes an active second still raises the sim counter
`totalSecondsActive` by exactly 1. -/
theorem home_screen_accrues_nothing [Add R] (env : Env) (sim : Sim) (m : Monitor R)
    (event : Event R) (hh : homeAfterUpdate env sim m event = true) :
    ∃ m', listener env sim m event = Except.ok m' ∧
      m'.engagementMetrics.screens = m.engagementMetrics.screens ∧
      (∀ i, screenActiveAt m' i = screenActiveAt m i) ∧
      (∀ i, screenRunAt m' i = screenRunAt m i) ∧
      (closesActiveSecond m event = true → simActive m' = simActive m + 1) ∧
      (closesActiveSecond m event = false → simActive m' = simActive m) := by
  obtain ⟨m', h⟩ := listener_completes env sim m event
    (by
      intro hc hb
      simp [homeAfterUpdate, hc, hb] at hh)
    (by
      intro hf
      rw [hh] at hf
      cases hf)
  obtain ⟨-, -, -, -, -, -, -, ha, hs, -⟩ := listener_ok h
  have hscreens : m'.engagementMetrics.screens = m.engagementMetrics.screens := by
    apply screens_ext
    intro i
    rw [hs i]
    cases screenAt m.engagementMetrics.screens i with
    | none => rfl
    | some s => simp [entryAfter_home_showing env sim m event i s hh]
  refine ⟨m', h, hscreens, ?_, ?_, ?_, ?_⟩
  · intro i; simp [screenActiveAt, hscreens]
  · intro i; simp [screenRunAt, hscreens]
  · intro hc; simp [simActive, ha, hc]
  · intro hc; simp [simActive, ha, hc]

/-- Witness for C5: a step while the fresh monitor still shows the home screen. -/
theorem home_screen_accrues_nothing_witness :
    homeAfterUpdate demoEnv demoSim demoFresh (stepSimulation 16 16) = true ∧
    ∃ m', listener demoEnv demoSim demoFresh (stepSimulation 16 16) = Except.ok m' ∧
      m'.engagementMetrics.screens = demoFresh.engagementMetrics.screens :=
  ⟨rfl,
    (home_screen_accrues_nothing demoEnv demoSim demoFresh (stepSimulation 16 16) rfl).imp
      fun _ h => ⟨h.1, h.2.1⟩⟩

/-- C6. Run time of the current screen (lines 125-127). For every state and event on which the
listener returns: if the event is a `stepSimulation` event and the home screen is not showing,
the current screen exists, its `totalSecondsOfScreenRun` after the call is its value before plus
`event.data.dt`, and every other screen's `totalSecondsOfScreenRun` is unchanged; if the event is
not a `stepSimulation` event, every screen's `totalSecondsOfScreenRun` is unchanged. -/
theorem step_adds_run_seconds [Add R] (env : Env) (sim : Sim) (m m' : Monitor R)
    (event : Event R) (h : listener env sim m event = Except.ok m') :
    (isStepSimulation sim event = true → homeAfterUpdate env sim m event = false →
      (∃ r, screenRunAt m (indexAfterUpdate env sim m event) = some r ∧
        screenRunAt m' (indexAfterUpdate env sim m event) = some (r + event.data.dt)) ∧
      ∀ i, i ≠ indexAfterUpdate env sim m event → screenRunAt m' i = screenRunAt m i) ∧
    (isStepSimulation sim event = false → ∀ i, screenRunAt m' i = screenRunAt m i) := by
  obtain ⟨-, -, -, -, -, -, -, -, -, hex⟩ := listener_ok h
  constructor
  · intro hstep hh
    constructor
    · obtain ⟨entry, he⟩ := hex hh (Or.inr hstep)
      refine ⟨entry.totalSecondsOfScreenRun, by simp [screenRunAt, he], ?_⟩
      rw [listener_run h]
      simp [screenRunAt, he, hh, hstep]
    · intro i hi
      rw [listener_run h]
      simp [hi]
  · intro hstep i
    rw [listener_run h]
    simp [hstep]

/-- Witness for C6: a step of 16 on the first screen. -/
theorem step_adds_run_seconds_witness :
    listener demoEnv demoSim demoOpen (stepSimulation 216 16) = Except.ok demoStepped ∧
    screenRunAt demoOpen 0 = some 0 ∧
    screenRunAt demoStepped 0 = some 16 ∧
    screenRunAt demoStepped 1 = screenRunAt demoOpen 1 :=
  have h := (step_adds_run_seconds demoEnv demoSim demoOpen demoStepped (stepSimulation 216 16)
    rfl).1 rfl rfl
  ⟨rfl, rfl, rfl, h.2 1 (by decide)⟩

/-! ## `startOfData` and `totalSecondsOfSimRun` -/

/-- `firstActive` and `startOfData` after one completed call. -/
theorem listener_start [Add R] {env : Env} {sim : Sim} {m m' : Monitor R} {event : Event R}
    (h : listener env sim m event = Except.ok m') :
    m'.firstActive = (m.firstActive || isActiveEvent env event) ∧
    m'.engagementMetrics.sim.startOfData = startOfDataAfter env m event := by
  obtain ⟨-, -, hf, -, hs, -⟩ := listener_ok h
  exact ⟨hf, hs⟩

/-- Once `firstActive` is set, `startOfData` is never written again. -/
theorem run_started [Add R] {env : Env} {sim : Sim} {m m' : Monitor R}
    {events : List (Event R)} (hf : m.firstActive = true)
    (h : run env sim m events = Except.ok m') :
    m'.firstActive = true ∧
    m'.engagementMetrics.sim.startOfData = m.engagementMetrics.sim.startOfData := by
  induction events generalizing m with
  | nil =>
    have := run_nil_ok h
    subst this
    exact ⟨hf, rfl⟩
  | cons event rest ih =>
    obtain ⟨m1, h1, h2⟩ := run_cons_ok h
    obtain ⟨f1, s1⟩ := listener_start h1
    have hf1 : m1.firstActive = true := by rw [f1, hf]; rfl
    obtain ⟨r1, r2⟩ := ih hf1 h2
    refine ⟨r1, r2.trans ?_⟩
    rw [s1]
    simp [startOfDataAfter, hf]

/-- Until `firstActive` is set, `startOfData` waits for the first active event. -/
theorem run_not_started [Add R] {env : Env} {sim : Sim} {m m' : Monitor R}
    {events : List (Event R)} (hf : m.firstActive = false)
    (h : run env sim m events = Except.ok m') :
    m'.firstActive = events.any (isActiveEvent env) ∧
    m'.engagementMetrics.sim.startOfData =
      match events.find? (isActiveEvent env) with
      | some event => some event.time
      | none => m.engagementMetrics.sim.startOfData := by
  induction events generalizing m with
  | nil =>
    have := run_nil_ok h
    subst this
    exact ⟨hf, rfl⟩
  | cons event rest ih =>
    obtain ⟨m1, h1, h2⟩ := run_cons_ok h
    obtain ⟨f1, s1⟩ := listener_start h1
    cases ha : isActiveEvent env event
    · have hf1 : m1.firstActive = false := by rw [f1, hf, ha]; rfl
      obtain ⟨r1, r2⟩ := ih hf1 h2
      refine ⟨by simp [List.any_cons, ha, r1], ?_⟩
      rw [r2, List.find?_cons_of_neg _ (by simp [ha]), s1]
      simp [startOfDataAfter, ha]
    · have hf1 : m1.firstActive = true := by rw [f1, ha]; simp
      obtain ⟨r1, r2⟩ := run_started hf1 h2
      refine ⟨by simp [List.any_cons, ha, r1], ?_⟩
      rw [r2, List.find?_cons_of_pos _ ha, s1]
      simp [startOfDataAfter, ha, hf]

/-- C8. `startOfData` is the time of the first active event. From a freshly constructed monitor,
after any stream on which the listener returns, `startOfData` is `null` if the stream holds no
active event and is otherwise the `time` of its first active event (whatever that time is); and
once it is set, no later events change it. -/
theorem startOfData_is_first_active_event [Add R] [Zero R] (env : Env) (sim : Sim)
    (events later : List (Event R)) (m' m'' : Monitor R)
    (h : run env sim (construct sim) events = Except.ok m')
    (hl : run env sim m' later = Except.ok m'') :
    m'.engagementMetrics.sim.startOfData =
      (events.find? (isActiveEvent env)).map (fun event => event.time) ∧
    (∀ v, m'.engagementMetrics.sim.startOfData = some v →
      m''.engagementMetrics.sim.startOfData = some v) := by
  obtain ⟨r1, r2⟩ := run_not_started (m := construct sim) rfl h
  have hsd : m'.engagementMetrics.sim.startOfData =
      (events.find? (isActiveEvent env)).map (fun event => event.time) := by
    rw [r2]
    cases events.find? (isActiveEvent env) <;> rfl
  refine ⟨hsd, ?_⟩
  intro v hv
  have hf : m'.firstActive = true := by
    rw [r1]
    rw [hsd] at hv
    cases hfind : events.find? (isActiveEvent env) with
    | none => rw [hfind] at hv; cases hv
    | some e =>
      have := List.find?_some hfind
      have hmem := List.mem_of_find?_eq_some hfind
      exact List.any_eq_true.mpr ⟨e, hmem, this⟩
  obtain ⟨-, r4⟩ := run_started hf hl
  rw [r4, hv]

/-- Witness for C8: the first active event is at time 0, and a later press at 700 leaves
`startOfData` at 0. -/
theorem startOfData_is_first_active_event_witness :
    run demoEnv demoSim demoFresh [pointerDown 0] = Except.ok demoPressedAtZero ∧
    run demoEnv demoSim demoPressedAtZero [pointerDown 700] = Except.ok demoPressedAgain ∧
    demoPressedAtZero.engagementMetrics.sim.startOfData = some 0 ∧
    demoPressedAgain.engagementMetrics.sim.startOfData = some 0 :=
  have h := startOfData_is_first_active_event demoEnv demoSim [pointerDown 0] [pointerDown 700]
    demoPressedAtZero demoPressedAgain rfl rfl
  ⟨rfl, rfl, h.1, h.2 0 rfl⟩

/-- `toFixedNumber` returns an integer nearest to a thousandth of its argument. -/
theorem toFixedNumber_nearest (msDifference : Int) :
    |1000 * toFixedNumber msDifference - msDifference| ≤ 500 := by
  unfold toFixedNumber
  rw [abs_le]
  split <;> omega

/-- `totalSecondsOfSimRun` after one completed call (lines 119-122): the baseline is
`startOfData` unless that is `null` or `0`, in which case it is the time of the event. -/
theorem listener_totalSecondsOfSimRun [Add R] {env : Env} {sim : Sim} {m m' : Monitor R}
    {event : Event R} (h : listener env sim m event = Except.ok m') :
    m'.engagementMetrics.sim.totalSecondsOfSimRun =
      toFixedNumber (event.time - orElse m'.engagementMetrics.sim.startOfData event.time) ∧
    (∀ b, m'.engagementMetrics.sim.startOfData = some b → b ≠ 0 →
      m'.engagementMetrics.sim.totalSecondsOfSimRun = toFixedNumber (event.time - b)) ∧
    (m'.engagementMetrics.sim.startOfData = none →
      m'.engagementMetrics.sim.totalSecondsOfSimRun = 0) := by
  obtain ⟨-, -, -, -, hs, -, ht, -⟩ := listener_ok h
  rw [← hs] at ht
  refine ⟨ht, ?_, ?_⟩
  · intro b hb hb0
    rw [ht, hb]
    simp [orElse, hb0]
  · intro hn
    rw [ht, hn]
    simp [orElse, toFixedNumber]

/-- C7. The code at the failing input: a pointer press at 0 sets `startOfData` to 0; at the next
event, at 5000, line 120 takes `startOfData || event.time` to be 5000, so `totalSecondsOfSimRun`
is 0, although 5000 ms since `startOfData` round to 5 seconds. -/
theorem startOfData_zero_is_read_as_unset :
    run demoEnv demoSim demoFresh [pointerDown 0, stepSimulation 5000 16] = Except.ok demoLate ∧
    demoLate.engagementMetrics.sim.startOfData = some 0 ∧
    demoLate.engagementMetrics.sim.currentTimeStamp = some 5000 ∧
    demoLate.engagementMetrics.sim.totalSecondsOfSimRun = 0 ∧
    toFixedNumber (5000 - 0) = 5 :=
  ⟨rfl, rfl, rfl, rfl, rfl⟩

/-! ## `timeStampOfFirstUse` -/

/-- `timeStampOfFirstUse` of every screen after one completed call. -/
theorem listener_firstUse [Add R] {env : Env} {sim : Sim} {m m' : Monitor R} {event : Event R}
    (h : listener env sim m event = Except.ok m') (i : Int) :
    firstUseAt m' i = (firstUseAt m i).map fun v =>
      if (isShowHomeScreenChange env sim event = true ∧ event.data.newValueBool = false ∧
            i = m.currentScreenIndex) ∨
          (isScreenIndexChange env sim event = true ∧ homeAfterUpdate env sim m event = false ∧
            i = indexAfterUpdate env sim m event)
      then some (orElse v event.time) else v := by
  obtain ⟨-, -, -, -, -, -, -, -, hs, -⟩ := listener_ok h
  unfold firstUseAt
  rw [hs i]
  cases screenAt m.engagementMetrics.screens i with
  | none => rfl
  | some s =>
    simp only [Option.map_some']
    rw [entryAfter_timeStampOfFirstUse]

/-- A `timeStampOfFirstUse` that is set to a non-zero time is never changed. -/
theorem listener_firstUse_nonzero [Add R] {env : Env} {sim : Sim} {m m' : Monitor R}
    {event : Event R} (h : listener env sim m event = Except.ok m') (i : Int) (v : Int)
    (hv : firstUseAt m i = some (some v)) (hv0 : v ≠ 0) :
    firstUseAt m' i = some (some v) := by
  rw [listener_firstUse h, hv]
  simp only [Option.map_some']
  split
  · simp [orElse, hv0]
  · rfl

/-- C9. The code at the failing input: the first screen is first used at 0, so its
`timeStampOfFirstUse` is 0; when it becomes the current screen again at 7, line 77 takes
`timeStampOfFirstUse || event.time` to be 7 and overwrites the field. -/
theorem firstUse_zero_is_overwritten :
    run demoEnv demoSim demoFresh [showHomeScreenChanged 0 false, screenIndexChanged 5 1]
      = Except.ok demoUsedAtZero ∧
    firstUseAt demoUsedAtZero 0 = some (some 0) ∧
    listener demoEnv demoSim demoUsedAtZero (screenIndexChanged 7 0) = Except.ok demoUsedAgain ∧
    firstUseAt demoUsedAgain 0 = some (some 7) :=
  ⟨rfl, rfl, rfl, rfl⟩

/-- C10, as stated, fails: a monitor constructed while the first screen is showing receives a
step at 5. After that event the first screen is current and the home screen is not showing, so
the claim gives 5, but no branch of the listener has called `updateScreenStartTime` and
`timeStampOfFirstUse` is still `null`. -/
theorem firstUse_needs_a_change_event :
    run demoEnv demoSimOnScreen (construct demoSimOnScreen) [stepSimulation 5 16]
      = Except.ok demoRunning ∧
    demoRunning.isHomeScreenShowing = false ∧
    demoRunning.currentScreenIndex = 0 ∧
    firstUseAt demoRunning 0 = some none ∧
    firstUseClaimed demoEnv demoSimOnScreen demoSimOnScreen.showHomeScreenValue
      demoSimOnScreen.screenIndexValue 0 [(stepSimulation 5 16 : Event Int)] = some 5 ∧
    firstUseAt demoRunning 0 ≠
      some (firstUseClaimed demoEnv demoSimOnScreen demoSimOnScreen.showHomeScreenValue
        demoSimOnScreen.screenIndexValue 0 [(stepSimulation 5 16 : Event Int)]) :=
  ⟨rfl, rfl, rfl, rfl, rfl, by decide⟩

theorem construct_firstUseAt [Zero R] (sim : Sim) (i : Int) :
    firstUseAt (construct sim : Monitor R) i =
      if 0 ≤ i ∧ i < sim.screens.length then some none else none := by
  unfold firstUseAt screenAt construct
  by_cases h0 : 0 ≤ i
  · simp only [h0, if_true, true_and, List.getElem?_map]
    by_cases hlt : i < sim.screens.length
    · have : i.toNat < sim.screens.length := by omega
      simp [hlt, List.getElem?_eq_getElem this]
    · have : sim.screens.length ≤ i.toNat := by omega
      simp [hlt, List.getElem?_eq_none this]
  · simp [h0]

/-- The stamping rule over a stream, from any state in which screen `i` is unstamped or stamped
with a non-zero time. -/
theorem run_firstUse [Add R] {env : Env} {sim : Sim}
    (hids : sim.showHomeScreenPhetioID ≠ sim.screenIndexPhetioID)
    {events : List (Event R)} {m m' : Monitor R} (i : Int)
    (hnz : ∀ e ∈ events,
      isShowHomeScreenChange env sim e = true ∨ isScreenIndexChange env sim e = true →
      e.time ≠ 0)
    (hm : firstUseAt m i ≠ some (some 0))
    (h : run env sim m events = Except.ok m') :
    firstUseAt m' i = (firstUseAt m i).map fun v =>
      match v with
      | some t => some t
      | none => firstUseStamped env sim m.isHomeScreenShowing m.currentScreenIndex i events := by
  induction events generalizing m with
  | nil =>
    rw [run_nil_ok h]
    cases hv : firstUseAt m i with
    | none => rfl
    | some v => cases v <;> rfl
  | cons event rest ih =>
    obtain ⟨m1, h1, h2⟩ := run_cons_ok h
    obtain ⟨hhome, hidx, -⟩ := listener_ok h1
    have hne : ¬ (isShowHomeScreenChange env sim event = true ∧
        isScreenIndexChange env sim event = true) := by
      rintro ⟨ha, hb⟩
      simp only [isShowHomeScreenChange, isScreenIndexChange, Bool.and_eq_true,
        decide_eq_true_eq] at ha hb
      exact hids (ha.1.symm.trans hb.1)
    have hcond : ((isShowHomeScreenChange env sim event = true ∧
          event.data.newValueBool = false ∧ i = m.currentScreenIndex) ∨
        (isScreenIndexChange env sim event = true ∧ homeAfterUpdate env sim m event = false ∧
          i = indexAfterUpdate env sim m event)) ↔
        ((isShowHomeScreenChange env sim event = true ∨
          isScreenIndexChange env sim event = true) ∧
        homeAfterUpdate env sim m event = false ∧ indexAfterUpdate env sim m event = i) := by
      constructor
      · rintro (⟨ha, hb, hc⟩ | ⟨ha, hb, hc⟩)
        · have hnb : isScreenIndexChange env sim event = false := by
            cases hx : isScreenIndexChange env sim event
            · rfl
            · exact absurd ⟨ha, hx⟩ hne
          exact ⟨Or.inl ha, by simp [homeAfterUpdate, ha, hb],
            by simp [indexAfterUpdate, hnb, hc]⟩
        · exact ⟨Or.inr ha, hb, hc.symm⟩
      · rintro ⟨ha | ha, hb, hc⟩
        · have hnb : isScreenIndexChange env sim event = false := by
            cases hx : isScreenIndexChange env sim event
            · rfl
            · exact absurd ⟨ha, hx⟩ hne
          left
          refine ⟨ha, by simpa [homeAfterUpdate, ha] using hb, ?_⟩
          simpa [indexAfterUpdate, hnb] using hc.symm
        · exact Or.inr ⟨ha, hb, hc.symm⟩
    have hstep := listener_firstUse h1 i
    have hrest : ∀ e ∈ rest,
        isShowHomeScreenChange env sim e = true ∨ isScreenIndexChange env sim e = true →
        e.time ≠ 0 := fun e he => hnz e (List.mem_cons_of_mem _ he)
    have ht : isShowHomeScreenChange env sim event = true ∨
        isScreenIndexChange env sim event = true → event.time ≠ 0 :=
      hnz event (List.mem_cons_self _ _)
    cases hv : firstUseAt m i with
    | none =>
      rw [hv] at hstep
      have hm1 : firstUseAt m1 i ≠ some (some 0) := by rw [hstep]; simp
      rw [ih hrest hm1 h2, hstep]
      rfl
    | some v =>
      rw [hv] at hstep
      simp only [Option.map_some'] at hstep
      cases v with
      | some t =>
        have ht0 : t ≠ 0 := by
          rintro rfl
          exact hm hv
        have hstep' : firstUseAt m1 i = some (some t) := by
          rw [hstep]
          split
          · simp [orElse, ht0]
          · rfl
        have hm1 : firstUseAt m1 i ≠ some (some 0) := by
          rw [hstep']
          simpa using ht0
        rw [ih hrest hm1 h2, hstep']
        rfl
      | none =>
        by_cases hc : (isShowHomeScreenChange env sim event = true ∨
            isScreenIndexChange env sim event = true) ∧
          homeAfterUpdate env sim m event = false ∧ indexAfterUpdate env sim m event = i
        · have hstep' : firstUseAt m1 i = some (some event.time) := by
            rw [hstep, if_pos (hcond.mpr hc)]
            simp [orElse]
          have hm1 : firstUseAt m1 i ≠ some (some 0) := by
            rw [hstep']
            simpa using ht hc.1
          rw [ih hrest hm1 h2, hstep']
          have hc' := hc
          simp only [homeAfterUpdate, indexAfterUpdate] at hc'
          simp only [Option.map_some', firstUseStamped]
          rw [if_pos hc']
        · have hstep' : firstUseAt m1 i = some none := by
            rw [hstep, if_neg (fun hx => hc (hcond.mp hx))]
          have hm1 : firstUseAt m1 i ≠ some (some 0) := by
            rw [hstep']
            simp
          rw [ih hrest hm1 h2, hstep', hhome, hidx]
          have hc' := hc
          simp only [homeAfterUpdate, indexAfterUpdate] at hc'
          simp only [Option.map_some', firstUseStamped]
          rw [if_neg hc']
          rfl

/-- C10, amended. From a freshly constructed monitor (any initial `showHomeScreenProperty` and
`screenIndexProperty` values), after any stream on which the listener returns and in which no
change of `showHomeScreenProperty` or `screenIndexProperty` carries the time 0, the
`timeStampOfFirstUse` of every screen `i` is the time of the first event that is a change of
`showHomeScreenProperty` or of `screenIndexProperty` and after whose processing screen `i` is the
current screen and the home screen is not showing; it is `null` if there is no such event. The
two properties have different phetioIDs. -/
theorem firstUse_is_first_change_onto_screen [Add R] [Zero R] (env : Env) (sim : Sim)
    (events : List (Event R)) (m' : Monitor R)
    (hids : sim.showHomeScreenPhetioID ≠ sim.screenIndexPhetioID)
    (hnz : ∀ e ∈ events,
      isShowHomeScreenChange env sim e = true ∨ isScreenIndexChange env sim e = true →
      e.time ≠ 0)
    (h : run env sim (construct sim) events = Except.ok m') (i : Int) :
    firstUseAt m' i =
      if 0 ≤ i ∧ i < sim.screens.length
      then some (firstUseStamped env sim sim.showHomeScreenValue sim.screenIndexValue i events)
      else none := by
  have hc := construct_firstUseAt (R := R) sim i
  have hm : firstUseAt (construct sim : Monitor R) i ≠ some (some 0) := by
    rw [hc]; split <;> simp
  rw [run_firstUse hids i hnz hm h, hc]
  split <;> rfl

/-- Witness for C10 as amended: the second screen is first shown by the change at 250. -/
theorem firstUse_is_first_change_onto_screen_witness :
    run demoEnv demoSim demoFresh
      [showHomeScreenChanged 100 false, stepSimulation 116 16, screenIndexChanged 250 1]
      = Except.ok demoVisited ∧
    firstUseAt demoVisited 1 = some (some 250) :=
  ⟨rfl,
    (firstUse_is_first_change_onto_screen demoEnv demoSim
      [showHomeScreenChanged 100 false, stepSimulation 116 16, screenIndexChanged 250 1]
      demoVisited (by decide) (by decide) rfl 1).trans rfl⟩

/-! ## Calls that return -/

/-- A stream is processed to its end without a throw when the current index and every index
carried by a `screenIndexProperty` change name an existing screen. -/
theorem run_completes [Add R] (env : Env) (sim : Sim) (m : Monitor R) (events : List (Event R))
    (hcur : ∃ entry, screenAt m.engagementMetrics.screens m.currentScreenIndex = some entry)
    (hnew : ∀ e ∈ events, isScreenIndexChange env sim e = true →
      ∃ entry, screenAt m.engagementMetrics.screens e.data.newValueIndex = some entry) :
    ∃ m', run env sim m events = Except.ok m' := by
  induction events generalizing m with
  | nil => exact ⟨m, rfl⟩
  | cons event rest ih =>
    have hidx : ∃ entry, screenAt m.engagementMetrics.screens
        (indexAfterUpdate env sim m event) = some entry := by
      unfold indexAfterUpdate
      cases hc : isScreenIndexChange env sim event
      · simpa using hcur
      · simpa using hnew event (List.mem_cons_self _ _) hc
    obtain ⟨m1, h1⟩ := listener_completes env sim m event (fun _ _ => hcur) (fun _ _ => hidx)
    obtain ⟨-, hi, -, -, -, -, -, -, hs, -⟩ := listener_ok h1
    have keep : ∀ i, (∃ entry, screenAt m.engagementMetrics.screens i = some entry) →
        ∃ entry, screenAt m1.engagementMetrics.screens i = some entry := by
      intro i ⟨entry, he⟩
      exact ⟨entryAfter env sim m event i entry, by rw [hs, he]; rfl⟩
    obtain ⟨m', h'⟩ := ih m1 (by rw [hi]; exact keep _ hidx)
      (fun e he hc => keep _ (hnew e (List.mem_cons_of_mem _ he) hc))
    refine ⟨m', ?_⟩
    show (listener env sim m event).bind (fun m1 => run env sim m1 rest) = Except.ok m'
    rw [h1]
    exact h'

theorem construct_screenAt [Zero R] (sim : Sim) (i : Int) (h0 : 0 ≤ i)
    (hlt : i < sim.screens.length) :
    ∃ entry, screenAt (construct sim : Monitor R).engagementMetrics.screens i = some entry := by
  have : i.toNat < sim.screens.length := by omega
  unfold screenAt construct
  simp [h0, List.getElem?_eq_getElem this]

/-- From a freshly constructed monitor whose initial screen index is in range, every stream
whose `screenIndexProperty` changes carry indices in range is processed without a throw. -/
theorem run_construct_completes [Add R] [Zero R] (env : Env) (sim : Sim)
    (events : List (Event R))
    (hcur : 0 ≤ sim.screenIndexValue ∧ sim.screenIndexValue < sim.screens.length)
    (hnew : ∀ e ∈ events, isScreenIndexChange env sim e = true →
      0 ≤ e.data.newValueIndex ∧ e.data.newValueIndex < sim.screens.length) :
    ∃ m', run env sim (construct sim) events = Except.ok m' :=
  run_completes env sim (construct sim) events
    (construct_screenAt sim _ hcur.1 hcur.2)
    (fun e he hc => construct_screenAt sim _ (hnew e he hc).1 (hnew e he hc).2)

/-! ## Events the listener does not reject -/

/-- C11, as stated, fails: the last time seen by `demoOpen` is 200 and the step is at 100, yet the
listener returns normally and the state has changed (`currentTimeStamp` is now 100 and the step
has been added to the first screen's run time). -/
theorem regressed_timestamp_is_not_rejected :
    demoOpen.engagementMetrics.sim.currentTimeStamp = some 200 ∧
    (stepSimulation 100 16 : Event Int).time = 100 ∧
    listener demoEnv demoSim demoOpen (stepSimulation 100 16) = Except.ok demoRegressed ∧
    demoRegressed.engagementMetrics.sim.currentTimeStamp = some 100 ∧
    screenRunAt demoRegressed 0 = some 16 ∧
    demoRegressed ≠ demoOpen :=
  ⟨rfl, rfl, rfl, rfl, rfl, by decide⟩

/-- C11, amended. The listener does not compare `event.time` with the last time seen. For every
state whose `currentTimeStamp` is `c` and every event with `event.time < c`, if the screen entries
at the current index and at the index held after lines 88-92 exist, the listener returns normally,
`currentTimeStamp` becomes `event.time`, and so the state after the call differs from the state
before it. -/
theorem regressed_timestamp_is_processed [Add R] (env : Env) (sim : Sim) (m : Monitor R)
    (event : Event R) (c : Int)
    (hc : m.engagementMetrics.sim.currentTimeStamp = some c) (ht : event.time < c)
    (hcur : ∃ entry, screenAt m.engagementMetrics.screens m.currentScreenIndex = some entry)
    (hnew : ∃ entry, screenAt m.engagementMetrics.screens (indexAfterUpdate env sim m event)
      = some entry) :
    ∃ m', listener env sim m event = Except.ok m' ∧
      m'.engagementMetrics.sim.currentTimeStamp = some event.time ∧ m' ≠ m := by
  obtain ⟨m', h⟩ := listener_completes env sim m event (fun _ _ => hcur) (fun _ _ => hnew)
  obtain ⟨-, -, -, -, -, hts, -⟩ := listener_ok h
  refine ⟨m', h, hts, ?_⟩
  intro heq
  rw [heq, hc] at hts
  injection hts with hts
  omega

/-- Witness for C11 as amended: a step at 100 after the time 200 has been seen. -/
theorem regressed_timestamp_is_processed_witness :
    demoOpen.engagementMetrics.sim.currentTimeStamp = some 200 ∧
    ∃ m', listener demoEnv demoSim demoOpen (stepSimulation 100 16) = Except.ok m' ∧
      m'.engagementMetrics.sim.currentTimeStamp = some 100 ∧ m' ≠ demoOpen :=
  ⟨rfl,
    regressed_timestamp_is_processed demoEnv demoSim demoOpen (stepSimulation 100 16) 200
      rfl (by decide) ⟨_, rfl⟩ ⟨_, rfl⟩⟩

/-- C12, as stated, fails, in two ways. While the home screen is showing, a change of
`screenIndexProperty` to 5 (there are two screens) is not reported at all: the listener returns
and `currentScreenIndex` is 5. While the first screen is showing it does throw, but
`currentScreenIndex` has already been set to 5. -/
theorem unknown_screen_index_is_not_rejected :
    screenAt demoFresh.engagementMetrics.screens 5 = none ∧
    demoFresh.isHomeScreenShowing = true ∧
    listener demoEnv demoSim demoFresh (screenIndexChanged 10 5) = Except.ok demoOffList ∧
    demoOffList.currentScreenIndex = 5 ∧
    demoOpen.isHomeScreenShowing = false ∧
    demoOpen.currentScreenIndex = 0 ∧
    listener demoEnv demoSim demoOpen (screenIndexChanged 300 5)
      = Except.error demoOffListThrown ∧
    demoOffListThrown.currentScreenIndex = 5 :=
  ⟨rfl, rfl, rfl, rfl, rfl, rfl, rfl, rfl⟩

/-- C12, amended. The listener does not check the index carried by a change of
`screenIndexProperty`. For every state and every such change (that is not also a change of
`showHomeScreenProperty`) whose index names no screen: if the home screen is not showing, the
listener throws, and the state it leaves is the state before the call with `currentScreenIndex`
set to the new index and nothing else changed; if the home screen is showing, the listener
returns, `currentScreenIndex` is the new index and the list of screen entries is unchanged. In
both cases the number of screen entries is unchanged. -/
theorem unknown_screen_index_is_stored [Add R] (env : Env) (sim : Sim) (m : Monitor R)
    (event : Event R)
    (hchange : isScreenIndexChange env sim event = true)
    (hnot : isShowHomeScreenChange env sim event = false)
    (hout : screenAt m.engagementMetrics.screens event.data.newValueIndex = none) :
    (m.isHomeScreenShowing = false →
      listener env sim m event =
        Except.error { m with currentScreenIndex := event.data.newValueIndex }) ∧
    (m.isHomeScreenShowing = true →
      ∃ m', listener env sim m event = Except.ok m' ∧
        m'.currentScreenIndex = event.data.newValueIndex ∧
        m'.isHomeScreenShowing = true ∧
        m'.engagementMetrics.screens = m.engagementMetrics.screens) ∧
    (stateAfter (listener env sim m event)).engagementMetrics.screens.length =
      m.engagementMetrics.screens.length := by
  have hhome : homeAfterUpdate env sim m event = m.isHomeScreenShowing := by
    simp [homeAfterUpdate, hnot]
  have hidx : indexAfterUpdate env sim m event = event.data.newValueIndex := by
    simp [indexAfterUpdate, hchange]
  have hthrow : m.isHomeScreenShowing = false →
      listener env sim m event =
        Except.error { m with currentScreenIndex := event.data.newValueIndex } := by
    intro hh
    simp [listener, onShowHomeScreen, hnot, onScreenIndex, hchange, updateScreenStartTime, hh,
      withCurrentScreen, hout, Except.bind]
  have hret : m.isHomeScreenShowing = true →
      ∃ m', listener env sim m event = Except.ok m' ∧
        m'.currentScreenIndex = event.data.newValueIndex ∧
        m'.isHomeScreenShowing = true ∧
        m'.engagementMetrics.screens = m.engagementMetrics.screens := by
    intro hh
    have hh' : homeAfterUpdate env sim m event = true := hhome.trans hh
    obtain ⟨m', h⟩ := listener_completes env sim m event
      (by intro hc; rw [hnot] at hc; cases hc)
      (by intro hf; rw [hh'] at hf; cases hf)
    obtain ⟨h1, h2, -, -, -, -, -, -, hs, -⟩ := listener_ok h
    refine ⟨m', h, h2.trans hidx, h1.trans hh', ?_⟩
    apply screens_ext
    intro i
    rw [hs i]
    cases screenAt m.engagementMetrics.screens i with
    | none => rfl
    | some s => simp [entryAfter_home_showing env sim m event i s hh']
  refine ⟨hthrow, hret, ?_⟩
  cases hh : m.isHomeScreenShowing
  · rw [hthrow hh]; rfl
  · obtain ⟨m', h, -, -, hs⟩ := hret hh
    rw [h]
    exact congrArg List.length hs

/-- Witness for C12 as amended: a change to index 5 while the first of two screens is showing. -/
theorem unknown_screen_index_is_stored_witness :
    screenAt demoOpen.engagementMetrics.screens 5 = none ∧
    listener demoEnv demoSim demoOpen (screenIndexChanged 300 5) =
      Except.error { demoOpen with currentScreenIndex := 5 } :=
  ⟨rfl,
    (unknown_screen_index_is_stored demoEnv demoSim demoOpen (screenIndexChanged 300 5)
      rfl rfl rfl).1 rfl⟩

/-! ## `isActiveEvent` -/

/-- C15. `isActiveEvent( event )` is `true` exactly when the component name of `event.phetioID`
is one of `'mouseDownAction'`, `'touchDownAction'`, `'keydownAction'`, `'penDownAction'`. It
reads nothing of the event but its `phetioID`: changing `name`, `time` and `data` does not change
the result. In particular it is `false` for an event whose component name is that of
`stepSimulationAction`, `showHomeScreenProperty` or `screenIndexProperty`. -/
theorem isActiveEvent_iff (env : Env) (event : Event R) :
    (isActiveEvent env event = true ↔
      env.getComponentName event.phetioID ∈
        ["mouseDownAction", "touchDownAction", "keydownAction", "penDownAction"]) ∧
    (∀ (name : String) (time : Int) (data : EventData R),
      isActiveEvent env { phetioID := event.phetioID, name := name, time := time, data := data }
        = isActiveEvent env event) ∧
    (env.getComponentName event.phetioID ∈
        ["stepSimulationAction", "showHomeScreenProperty", "screenIndexProperty"] →
      isActiveEvent env event = false) := by
  have key : isActiveEvent env event = true ↔
      env.getComponentName event.phetioID ∈
        ["mouseDownAction", "touchDownAction", "keydownAction", "penDownAction"] := by
    unfold isActiveEvent
    simp only [List.foldl_cons, List.foldl_nil, List.mem_cons, List.mem_singleton,
      List.not_mem_nil, or_false]
    constructor
    · intro h
      by_contra hn
      simp only [not_or] at hn
      simp [hn.1, hn.2.1, hn.2.2.1, hn.2.2.2] at h
    · rintro (h | h | h | h) <;> simp [h]
  refine ⟨key, fun _ _ _ => rfl, ?_⟩
  intro h
  cases hv : isActiveEvent env event
  · rfl
  · have h4 := key.mp hv
    simp only [List.mem_cons, List.mem_singleton, List.not_mem_nil, or_false] at h h4
    rcases h with h | h | h <;> rw [h] at h4 <;> simp at h4

/-- Witness for C15: a step event is not an active event, a pointer press is. -/
theorem isActiveEvent_iff_witness :
    isActiveEvent demoEnv (stepSimulation 16 16 : Event Int) = false ∧
    isActiveEvent demoEnv (pointerDown 0 : Event Int) = true :=
  ⟨(isActiveEvent_iff demoEnv (stepSimulation 16 16 : Event Int)).2.2 (by decide),
    (isActiveEvent_iff demoEnv (pointerDown 0 : Event Int)).1.mpr (by decide)⟩

/-! ## Sim counter against screen counters -/

/-- If every entry of `l'` is the entry of `l` at the same place with its `totalSecondsActive`
raised by one at place `j` under `c` and kept elsewhere, the lists have the same length and the
sum of `totalSecondsActive` grows by at most one. -/
theorem sum_active_shift (g : Int → ScreenMetrics R → ScreenMetrics R) (j : Int) (c : Prop)
    [Decidable c]
    (hg : ∀ i s, (g i s).totalSecondsActive =
      if c ∧ i = j then s.totalSecondsActive + 1 else s.totalSecondsActive)
    (l l' : List (ScreenMetrics R)) (k : Nat)
    (h : ∀ n : Nat, l'[n]? = (l[n]?).map (g ((n + k : Nat) : Int))) :
    l'.length = l.length ∧
    (l'.map fun entry => entry.totalSecondsActive).sum ≤
      (l.map fun entry => entry.totalSecondsActive).sum + (if c ∧ (k : Int) ≤ j then 1 else 0) := by
  induction l generalizing l' k with
  | nil =>
    have h0 := h 0
    cases l' with
    | nil => simp
    | cons b t => simp at h0
  | cons a t ih =>
    cases l' with
    | nil =>
      have h0 := h 0
      simp at h0
    | cons b t' =>
      have h0 := h 0
      simp only [List.getElem?_cons_zero, Option.map_some', Option.some.injEq] at h0
      have htail : ∀ n : Nat, t'[n]? = (t[n]?).map (g ((n + (k + 1) : Nat) : Int)) := by
        intro n
        have hn := h (n + 1)
        simp only [List.getElem?_cons_succ] at hn
        have e : n + 1 + k = n + (k + 1) := by omega
        rw [e] at hn
        exact hn
      obtain ⟨hl, hs⟩ := ih t' (k + 1) htail
      refine ⟨by simp [hl], ?_⟩
      simp only [List.map_cons, List.sum_cons]
      have hb : b.totalSecondsActive =
          if c ∧ ((k : Nat) : Int) = j then a.totalSecondsActive + 1 else a.totalSecondsActive := by
        rw [h0, hg]
        simp
      by_cases hc : c
      · by_cases hk : (k : Int) = j
        · have h1 : ¬ (((k + 1 : Nat) : Int) ≤ j) := by omega
          have h2 : (k : Int) ≤ j := by omega
          simp only [hc, hk, true_and, and_self, if_true] at hb
          simp only [hc, true_and, h1, if_false, h2, if_true] at hs ⊢
          omega
        · simp only [hc, hk, and_false, if_false] at hb
          simp only [hc, true_and] at hs ⊢
          split at hs <;> split <;> omega
      · simp only [hc, false_and, if_false] at hb hs ⊢
        omega

/-- One completed call keeps the number of screen entries and raises the sum of their
`totalSecondsActive` by no more than it raises the sim counter. -/
theorem listener_screensActive [Add R] {env : Env} {sim : Sim} {m m' : Monitor R}
    {event : Event R} (h : listener env sim m event = Except.ok m') :
    m'.engagementMetrics.screens.length = m.engagementMetrics.screens.length ∧
    screensActive m' + simActive m ≤ screensActive m + simActive m' := by
  obtain ⟨-, -, -, -, -, -, -, ha, hs, -⟩ := listener_ok h
  have hn : ∀ n : Nat, m'.engagementMetrics.screens[n]? =
      (m.engagementMetrics.screens[n]?).map
        (entryAfter env sim m event ((n + 0 : Nat) : Int)) := by
    intro n
    have := hs (n : Int)
    simpa [screenAt] using this
  obtain ⟨hl, hsum⟩ := sum_active_shift (entryAfter env sim m event)
    (indexAfterUpdate env sim m event)
    (closesActiveSecond m event = true ∧ homeAfterUpdate env sim m event = false)
    (by
      intro i s
      rw [entryAfter_totalSecondsActive]
      simp only [and_assoc])
    _ _ 0 hn
  refine ⟨hl, ?_⟩
  unfold screensActive simActive
  rw [ha]
  by_cases hc : closesActiveSecond m event = true
  · simp only [hc, if_true]
    split at hsum <;> omega
  · have : ¬ ((closesActiveSecond m event = true ∧ homeAfterUpdate env sim m event = false) ∧
        ((0 : Nat) : Int) ≤ indexAfterUpdate env sim m event) := fun hx => hc hx.1.1
    simp only [this, if_false] at hsum
    omega

theorem run_screensActive [Add R] {env : Env} {sim : Sim} {m m' : Monitor R}
    {events : List (Event R)} (h : run env sim m events = Except.ok m') :
    m'.engagementMetrics.screens.length = m.engagementMetrics.screens.length ∧
    screensActive m' + simActive m ≤ screensActive m + simActive m' := by
  induction events generalizing m with
  | nil => rw [run_nil_ok h]; exact ⟨rfl, le_refl _⟩
  | cons event rest ih =>
    obtain ⟨m1, h1, h2⟩ := run_cons_ok h
    obtain ⟨l1, s1⟩ := listener_screensActive h1
    obtain ⟨l2, s2⟩ := ih h2
    exact ⟨l2.trans l1, by omega⟩

theorem construct_screensActive [Zero R] (sim : Sim) :
    screensActive (construct sim : Monitor R) = 0 ∧
    simActive (construct sim : Monitor R) = 0 ∧
    (construct sim : Monitor R).engagementMetrics.screens.length = sim.screens.length := by
  refine ⟨?_, rfl, by simp [construct]⟩
  unfold screensActive construct
  simp only [List.map_map]
  induction sim.screens with
  | nil => rfl
  | cons a t ih => simpa using ih

/-- C13. From a freshly constructed monitor whose initial screen index is in range, over every
stream whose `screenIndexProperty` changes carry indices in range, the listener returns for every
initial segment, and afterwards the sim counter `totalSecondsActive` is at least the sum of
`totalSecondsActive` over all screen entries, and there are as many screen entries as screens
given to the constructor. -/
theorem sim_active_bounds_screens_active [Add R] [Zero R] (env : Env) (sim : Sim)
    (first rest : List (Event R))
    (hcur : 0 ≤ sim.screenIndexValue ∧ sim.screenIndexValue < sim.screens.length)
    (hnew : ∀ e ∈ first ++ rest, isScreenIndexChange env sim e = true →
      0 ≤ e.data.newValueIndex ∧ e.data.newValueIndex < sim.screens.length) :
    ∃ m', run env sim (construct sim) first = Except.ok m' ∧
      (m'.engagementMetrics.screens.map fun entry => entry.totalSecondsActive).sum ≤
        m'.engagementMetrics.sim.totalSecondsActive ∧
      m'.engagementMetrics.screens.length = sim.screens.length := by
  obtain ⟨m', h⟩ := run_construct_completes env sim first hcur
    (fun e he => hnew e (List.mem_append_left _ he))
  obtain ⟨hl, hs⟩ := run_screensActive h
  obtain ⟨c1, c2, c3⟩ := construct_screensActive (R := R) sim
  refine ⟨m', h, ?_, hl.trans c3⟩
  have : screensActive m' ≤ simActive m' := by omega
  exact this

/-- Witness for C13: a press, a change to the first screen and a late step on a fresh monitor. -/
theorem sim_active_bounds_screens_active_witness :
    ∃ m', run demoEnv demoSim demoFresh
        [pointerDown 0, showHomeScreenChanged 100 false, stepSimulation 1200 16]
        = Except.ok m' ∧
      (m'.engagementMetrics.screens.map fun entry => entry.totalSecondsActive).sum ≤
        m'.engagementMetrics.sim.totalSecondsActive ∧
      m'.engagementMetrics.screens.length = demoSim.screens.length :=
  sim_active_bounds_screens_active demoEnv demoSim
    [pointerDown 0, showHomeScreenChanged 100 false, stepSimulation 1200 16] []
    (by decide) (by decide)

/-! ## Active time against elapsed time -/

/-- One completed call keeps `ActiveWithinElapsed` when the event is not earlier than the last
time seen. -/
theorem listener_activeWithinElapsed [Add R] {env : Env} {sim : Sim} {m m' : Monitor R}
    {event : Event R} (h : listener env sim m event = Except.ok m')
    (hinv : ActiveWithinElapsed m)
    (hord : ∀ c, m.engagementMetrics.sim.currentTimeStamp = some c → c ≤ event.time) :
    ActiveWithinElapsed m' := by
  obtain ⟨-, -, hf, hw, hs, hc, -, ha, -, -⟩ := listener_ok h
  unfold ActiveWithinElapsed
  rw [hf, hw, hs, hc, ha]
  unfold windowAfter startOfDataAfter closesActiveSecond
  rcases hinv with ⟨i1, i2, i3, i4⟩ | ⟨i1, sd, cur, i2, i3, i4⟩
  · rw [i1, i2, i3, i4]
    cases hact : isActiveEvent env event
    · left
      simp
    · right
      refine ⟨by simp, event.time, event.time, by simp, rfl, ?_⟩
      simp
  · right
    have hle := hord cur i3
    refine ⟨by simp [i1], sd, event.time, by simp [i1, i2], rfl, ?_⟩
    cases hwin : m.activeSecondStartTime with
    | none =>
      rw [hwin] at i4
      simp only at i4
      cases hact : isActiveEvent env event
      · simp only [Bool.false_eq_true, if_false, Nat.cast_add, Nat.cast_zero]
        omega
      · simp only [if_true, Bool.false_eq_true, if_false, Nat.cast_add, Nat.cast_zero]
        omega
    | some start =>
      rw [hwin] at i4
      simp only at i4
      by_cases hgt : event.time - start > 1000
      · cases hact : isActiveEvent env event
        · simp only [hgt, decide_True, if_true, Bool.false_eq_true, if_false, Nat.cast_add,
            Nat.cast_one]
          omega
        · simp only [hgt, decide_True, if_true, Nat.cast_add, Nat.cast_one]
          omega
      · cases hact : isActiveEvent env event
        · simp only [hgt, decide_False, Bool.false_eq_true, if_false, Nat.cast_add,
            Nat.cast_zero]
          omega
        · simp only [hgt, decide_False, Bool.false_eq_true, if_false, if_true, Nat.cast_add,
            Nat.cast_zero]
          omega

theorem run_activeWithinElapsed [Add R] {env : Env} {sim : Sim} {m m' : Monitor R}
    {events : List (Event R)} (h : run env sim m events = Except.ok m')
    (hinv : ActiveWithinElapsed m)
    (hsorted : events.Pairwise fun a b => a.time ≤ b.time)
    (hord : ∀ e ∈ events, ∀ c, m.engagementMetrics.sim.currentTimeStamp = some c → c ≤ e.time) :
    ActiveWithinElapsed m' := by
  induction events generalizing m with
  | nil => rw [run_nil_ok h]; exact hinv
  | cons event rest ih =>
    obtain ⟨m1, h1, h2⟩ := run_cons_ok h
    have hinv1 := listener_activeWithinElapsed h1 hinv (hord event (List.mem_cons_self _ _))
    obtain ⟨-, -, -, -, -, hc, -⟩ := listener_ok h1
    rw [List.pairwise_cons] at hsorted
    apply ih h2 hinv1 hsorted.2
    intro e he c hcur
    rw [hc] at hcur
    injection hcur with hcur
    rw [← hcur]
    exact hsorted.1 e he

/-- C17. Active time never exceeds elapsed time. From a freshly constructed monitor, after any
stream with non-decreasing times on which the listener returns, either `startOfData` is `null`
and the sim counter `totalSecondsActive` is 0, or `startOfData` and `currentTimeStamp` are set and
`1000 * totalSecondsActive ≤ currentTimeStamp - startOfData`. Moreover one call of the listener,
from any state, raises the sim counter by 0 or by 1. -/
theorem active_seconds_within_elapsed [Add R] [Zero R] (env : Env) (sim : Sim)
    (events : List (Event R)) (m' : Monitor R)
    (hsorted : events.Pairwise fun a b => a.time ≤ b.time)
    (h : run env sim (construct sim) events = Except.ok m') :
    ((m'.engagementMetrics.sim.startOfData = none ∧
        m'.engagementMetrics.sim.totalSecondsActive = 0) ∨
      ∃ startOfData current : Int,
        m'.engagementMetrics.sim.startOfData = some startOfData ∧
        m'.engagementMetrics.sim.currentTimeStamp = some current ∧
        1000 * (m'.engagementMetrics.sim.totalSecondsActive : Int) ≤ current - startOfData) ∧
    (∀ (m m1 : Monitor R) (event : Event R), listener env sim m event = Except.ok m1 →
      m1.engagementMetrics.sim.totalSecondsActive = m.engagementMetrics.sim.totalSecondsActive ∨
      m1.engagementMetrics.sim.totalSecondsActive =
        m.engagementMetrics.sim.totalSecondsActive + 1) := by
  constructor
  · have hinv : ActiveWithinElapsed (construct sim : Monitor R) :=
      Or.inl ⟨rfl, rfl, rfl, rfl⟩
    have := run_activeWithinElapsed h hinv hsorted (by
      intro e _ c hc
      cases hc)
    rcases this with ⟨-, i2, -, i4⟩ | ⟨-, sd, cur, i2, i3, i4⟩
    · exact Or.inl ⟨i2, i4⟩
    · right
      refine ⟨sd, cur, i2, i3, ?_⟩
      cases hwin : m'.activeSecondStartTime with
      | none => rw [hwin] at i4; exact i4
      | some start =>
        rw [hwin] at i4
        simp only at i4
        omega
  · intro m m1 event h1
    obtain ⟨-, -, -, -, -, -, -, ha, -⟩ := listener_ok h1
    rw [ha]
    split
    · right; rfl
    · left; rfl

/-- Witness for C17: a press at 0 and a step at 1200 on a fresh monitor; one second is counted
and 1200 ms have elapsed. -/
theorem active_seconds_within_elapsed_witness :
    run demoEnv demoSim demoFresh [pointerDown 0, stepSimulation 1200 16]
      = Except.ok demoTimed ∧
    demoTimed.engagementMetrics.sim.totalSecondsActive = 1 ∧
    ((demoTimed.engagementMetrics.sim.startOfData = none ∧
        demoTimed.engagementMetrics.sim.totalSecondsActive = 0) ∨
      ∃ startOfData current : Int,
        demoTimed.engagementMetrics.sim.startOfData = some startOfData ∧
        demoTimed.engagementMetrics.sim.currentTimeStamp = some current ∧
        1000 * (demoTimed.engagementMetrics.sim.totalSecondsActive : Int)
          ≤ current - startOfData) :=
  ⟨rfl, rfl,
    (active_seconds_within_elapsed demoEnv demoSim [pointerDown 0, stepSimulation 1200 16]
      demoTimed (by decide) rfl).1⟩

/-! ## The reference scenario -/

theorem classify_eq {env : Env} {sim : Sim} {event : Event R} {a b c d : Bool}
    (h : classify env sim event = (a, b, c, d)) :
    isShowHomeScreenChange env sim event = a ∧ isScreenIndexChange env sim event = b ∧
    isActiveEvent env event = c ∧ isStepSimulation sim event = d := by
  simpa [classify] using h

/-- Everything one completed call does to the listener's own variables, to the sim counter and
to the screen entry at index `i`. -/
theorem listener_summary [Add R] {env : Env} {sim : Sim} {m m' : Monitor R} {event : Event R}
    (h : listener env sim m event = Except.ok m') (i : Int) :
    m'.isHomeScreenShowing = homeAfterUpdate env sim m event ∧
    m'.currentScreenIndex = indexAfterUpdate env sim m event ∧
    m'.activeSecondStartTime = windowAfter env m event ∧
    simActive m' = simActive m + (if closesActiveSecond m event then 1 else 0) ∧
    (screenActiveAt m' i = (screenActiveAt m i).map fun n =>
      if closesActiveSecond m event = true ∧ homeAfterUpdate env sim m event = false ∧
          i = indexAfterUpdate env sim m event
      then n + 1 else n) ∧
    (screenRunAt m' i = (screenRunAt m i).map fun r =>
      if homeAfterUpdate env sim m event = false ∧ isStepSimulation sim event = true ∧
          i = indexAfterUpdate env sim m event
      then r + event.data.dt else r) ∧
    (firstUseAt m' i = (firstUseAt m i).map fun v =>
      if (isShowHomeScreenChange env sim event = true ∧ event.data.newValueBool = false ∧
            i = m.currentScreenIndex) ∨
          (isScreenIndexChange env sim event = true ∧ homeAfterUpdate env sim m event = false ∧
            i = indexAfterUpdate env sim m event)
      then some (orElse v event.time) else v) := by
  obtain ⟨h1, h2, -⟩ := listener_ok h
  obtain ⟨h3, h4, h5⟩ := listener_active h
  exact ⟨h1, h2, h3, h4, h5 i, listener_run h i, listener_firstUse h i⟩

theorem construct_at [Zero R] (sim : Sim) (i : Int) (h0 : 0 ≤ i) (hlt : i < sim.screens.length) :
    screenActiveAt (construct sim : Monitor R) i = some 0 ∧
    screenRunAt (construct sim : Monitor R) i = some 0 ∧
    firstUseAt (construct sim : Monitor R) i = some none := by
  have hn : i.toNat < sim.screens.length := by omega
  unfold screenActiveAt screenRunAt firstUseAt screenAt construct
  simp [h0, List.getElem?_eq_getElem hn]

/-- C14. The reference scenario. For a freshly constructed monitor with at least two screens
(initial index in range, home screen showing or not), the stream
`showHomeScreenProperty` changed to `false` at 0, `screenIndexProperty` changed to 1 at 0,
an active event at 0, `stepSimulation` with `dt = 0.016` at 16 and at 32, an active event at 1050
is processed to its end and leaves the sim counter `totalSecondsActive` at 1, and the second
screen with `totalSecondsOfScreenRun = 0.016 + 0.016 = 0.032`, `timeStampOfFirstUse = 0` and
`totalSecondsActive = 1`. Each event passes exactly the guard of its own kind. -/
theorem reference_scenario (env : Env) (sim : Sim) (e1 e2 e3 e4 e5 e6 : Event ℚ)
    (hlen : 2 ≤ sim.screens.length)
    (hidx : 0 ≤ sim.screenIndexValue ∧ sim.screenIndexValue < sim.screens.length)
    (k1 : classify env sim e1 = (true, false, false, false))
    (v1 : e1.data.newValueBool = false) (t1 : e1.time = 0)
    (k2 : classify env sim e2 = (false, true, false, false))
    (v2 : e2.data.newValueIndex = 1) (t2 : e2.time = 0)
    (k3 : classify env sim e3 = (false, false, true, false)) (t3 : e3.time = 0)
    (k4 : classify env sim e4 = (false, false, false, true))
    (v4 : e4.data.dt = 0.016) (t4 : e4.time = 16)
    (k5 : classify env sim e5 = (false, false, false, true))
    (v5 : e5.data.dt = 0.016) (t5 : e5.time = 32)
    (k6 : classify env sim e6 = (false, false, true, false)) (t6 : e6.time = 1050) :
    ∃ m', run env sim (construct sim) [e1, e2, e3, e4, e5, e6] = Except.ok m' ∧
      m'.engagementMetrics.sim.totalSecondsActive = 1 ∧
      screenRunAt m' 1 = some (0.016 + 0.016) ∧
      screenRunAt m' 1 = some 0.032 ∧
      firstUseAt m' 1 = some (some 0) ∧
      screenActiveAt m' 1 = some 1 := by
  obtain ⟨a1, b1, c1, d1⟩ := classify_eq k1
  obtain ⟨a2, b2, c2, d2⟩ := classify_eq k2
  obtain ⟨a3, b3, c3, d3⟩ := classify_eq k3
  obtain ⟨a4, b4, c4, d4⟩ := classify_eq k4
  obtain ⟨a5, b5, c5, d5⟩ := classify_eq k5
  obtain ⟨a6, b6, c6, d6⟩ := classify_eq k6
  have hone : (0 : Int) ≤ 1 ∧ (1 : Int) < sim.screens.length := by omega
  obtain ⟨m6, h⟩ := run_construct_completes env sim [e1, e2, e3, e4, e5, e6] hidx (by
    intro e he hc
    simp only [List.mem_cons, List.mem_singleton, List.not_mem_nil, or_false] at he
    rcases he with rfl | rfl | rfl | rfl | rfl | rfl
    · rw [b1] at hc; cases hc
    · rw [v2]; exact hone
    · rw [b3] at hc; cases hc
    · rw [b4] at hc; cases hc
    · rw [b5] at hc; cases hc
    · rw [b6] at hc; cases hc)
  refine ⟨m6, h, ?_⟩
  obtain ⟨m1, h1, h⟩ := run_cons_ok h
  obtain ⟨m2, h2, h⟩ := run_cons_ok h
  obtain ⟨m3, h3, h⟩ := run_cons_ok h
  obtain ⟨m4, h4, h⟩ := run_cons_ok h
  obtain ⟨m5, h5, h⟩ := run_cons_ok h
  obtain ⟨m6', h6, h⟩ := run_cons_ok h
  have := run_nil_ok h
  subst this
  obtain ⟨s0a, s0r, s0f⟩ := construct_at (R := ℚ) sim 1 hone.1 hone.2
  have w0 : (construct sim : Monitor ℚ).activeSecondStartTime = none := rfl
  have n0 : simActive (construct sim : Monitor ℚ) = 0 := rfl
  -- `showHomeScreenProperty` changed to `false` at 0
  obtain ⟨p1, q1, w1, n1, sa1, sr1, sf1⟩ := listener_summary h1 1
  have cl1 : closesActiveSecond (construct sim : Monitor ℚ) e1 = false := by
    simp [closesActiveSecond, w0]
  simp only [homeAfterUpdate, a1, if_true, v1] at p1
  simp only [windowAfter, cl1, c1, w0, Bool.false_eq_true, if_false] at w1
  simp only [cl1, Bool.false_eq_true, if_false, n0, add_zero] at n1
  simp only [cl1, Bool.false_eq_true, false_and, if_false, s0a, Option.map_some'] at sa1
  simp only [d1, Bool.false_eq_true, false_and, and_false, if_false, s0r,
    Option.map_some'] at sr1
  have sf1' : firstUseAt m1 1 = some none ∨ firstUseAt m1 1 = some (some 0) := by
    rw [sf1, s0f]
    simp only [Option.map_some', t1]
    split
    · right; rfl
    · left; rfl
  -- `screenIndexProperty` changed to 1 at 0
  obtain ⟨p2, q2, w2, n2, sa2, sr2, sf2⟩ := listener_summary h2 1
  have cl2 : closesActiveSecond m1 e2 = false := by simp [closesActiveSecond, w1]
  simp only [homeAfterUpdate, a2, Bool.false_eq_true, if_false, p1] at p2
  simp only [indexAfterUpdate, b2, if_true, v2] at q2
  simp only [windowAfter, cl2, c2, w1, Bool.false_eq_true, if_false] at w2
  simp only [cl2, Bool.false_eq_true, if_false, n1, add_zero] at n2
  simp only [cl2, Bool.false_eq_true, false_and, if_false, sa1, Option.map_some'] at sa2
  simp only [d2, Bool.false_eq_true, false_and, and_false, if_false, sr1,
    Option.map_some'] at sr2
  have sf2' : firstUseAt m2 1 = some (some 0) := by
    have hcond : (isShowHomeScreenChange env sim e2 = true ∧ e2.data.newValueBool = false ∧
          (1 : Int) = m1.currentScreenIndex) ∨
        (isScreenIndexChange env sim e2 = true ∧ homeAfterUpdate env sim m1 e2 = false ∧
          (1 : Int) = indexAfterUpdate env sim m1 e2) :=
      Or.inr ⟨b2, by simp [homeAfterUpdate, a2, p1], by simp [indexAfterUpdate, b2, v2]⟩
    rcases sf1' with hv | hv <;> rw [sf2, hv] <;>
      simp only [Option.map_some', if_pos hcond] <;> simp [orElse, t2]
  -- an active event at 0
  obtain ⟨p3, q3, w3, n3, sa3, sr3, sf3⟩ := listener_summary h3 1
  have cl3 : closesActiveSecond m2 e3 = false := by simp [closesActiveSecond, w2]
  simp only [homeAfterUpdate, a3, Bool.false_eq_true, if_false, p2] at p3
  simp only [indexAfterUpdate, b3, Bool.false_eq_true, if_false, q2] at q3
  simp only [windowAfter, cl3, c3, w2, Bool.false_eq_true, if_false, if_true, t3] at w3
  simp only [cl3, Bool.false_eq_true, if_false, n2, add_zero] at n3
  simp only [cl3, Bool.false_eq_true, false_and, if_false, sa2, Option.map_some'] at sa3
  simp only [d3, Bool.false_eq_true, false_and, and_false, if_false, sr2,
    Option.map_some'] at sr3
  simp only [a3, b3, Bool.false_eq_true, false_and, or_self, if_false, sf2',
    Option.map_some'] at sf3
  -- `stepSimulation` with `dt = 0.016` at 16
  obtain ⟨p4, q4, w4, n4, sa4, sr4, sf4⟩ := listener_summary h4 1
  have cl4 : closesActiveSecond m3 e4 = false := by simp [closesActiveSecond, w3, t4]
  simp only [homeAfterUpdate, a4, Bool.false_eq_true, if_false, p3] at p4
  simp only [indexAfterUpdate, b4, Bool.false_eq_true, if_false, q3] at q4
  simp only [windowAfter, cl4, c4, w3, Bool.false_eq_true, if_false] at w4
  simp only [cl4, Bool.false_eq_true, if_false, n3, add_zero] at n4
  simp only [cl4, Bool.false_eq_true, false_and, if_false, sa3, Option.map_some'] at sa4
  simp only [homeAfterUpdate, a4, Bool.false_eq_true, if_false, p3, indexAfterUpdate, b4, q3,
    d4, and_self, if_true, sr3, Option.map_some', v4] at sr4
  simp only [a4, b4, Bool.false_eq_true, false_and, or_self, if_false, sf3,
    Option.map_some'] at sf4
  -- `stepSimulation` with `dt = 0.016` at 32
  obtain ⟨p5, q5, w5, n5, sa5, sr5, sf5⟩ := listener_summary h5 1
  have cl5 : closesActiveSecond m4 e5 = false := by simp [closesActiveSecond, w4, t5]
  simp only [homeAfterUpdate, a5, Bool.false_eq_true, if_false, p4] at p5
  simp only [indexAfterUpdate, b5, Bool.false_eq_true, if_false, q4] at q5
  simp only [windowAfter, cl5, c5, w4, Bool.false_eq_true, if_false] at w5
  simp only [cl5, Bool.false_eq_true, if_false, n4, add_zero] at n5
  simp only [cl5, Bool.false_eq_true, false_and, if_false, sa4, Option.map_some'] at sa5
  simp only [homeAfterUpdate, a5, Bool.false_eq_true, if_false, p4, indexAfterUpdate, b5, q4,
    d5, and_self, if_true, sr4, Option.map_some', v5] at sr5
  simp only [a5, b5, Bool.false_eq_true, false_and, or_self, if_false, sf4,
    Option.map_some'] at sf5
  -- an active event at 1050
  obtain ⟨p6, q6, w6, n6, sa6, sr6, sf6⟩ := listener_summary h6 1
  have cl6 : closesActiveSecond m5 e6 = true := by simp [closesActiveSecond, w5, t6]
  simp only [cl6, if_true, n5] at n6
  simp only [homeAfterUpdate, a6, Bool.false_eq_true, if_false, p5, indexAfterUpdate, b6, q5,
    cl6, and_self, if_true, sa5, Option.map_some'] at sa6
  simp only [d6, Bool.false_eq_true, false_and, and_false, if_false, sr5,
    Option.map_some'] at sr6
  simp only [a6, b6, Bool.false_eq_true, false_and, or_self, if_false, sf5,
    Option.map_some'] at sf6
  refine ⟨n6, ?_, ?_, sf6, sa6⟩
  · rw [sr6]; norm_num
  · rw [sr6]; norm_num

/-- Witness for C14: the scenario on the two-screen demo sim. -/
theorem reference_scenario_witness :
    ∃ m' : Monitor ℚ, run demoEnv demoSim (construct demoSim)
        [showHomeScreenChanged 0 false, screenIndexChanged 0 1, pointerDown 0,
          stepSimulation 16 0.016, stepSimulation 32 0.016, pointerDown 1050]
        = Except.ok m' ∧
      m'.engagementMetrics.sim.totalSecondsActive = 1 ∧
      screenRunAt m' 1 = some (0.016 + 0.016) ∧
      screenRunAt m' 1 = some 0.032 ∧
      firstUseAt m' 1 = some (some 0) ∧
      screenActiveAt m' 1 = some 1 :=
  reference_scenario demoEnv demoSim
    (showHomeScreenChanged 0 false) (screenIndexChanged 0 1) (pointerDown 0)
    (stepSimulation 16 0.016) (stepSimulation 32 0.016) (pointerDown 1050)
    (by decide) (by decide)
    rfl rfl rfl rfl rfl rfl rfl rfl rfl rfl rfl rfl rfl rfl rfl rfl

/-! ## The frame of one call on the screen entries -/

/-- With different phetioIDs for the two properties, a completed call writes to no screen entry
but the one at the index held after lines 88-92. -/
theorem entryAfter_other_index [Add R] (env : Env) (sim : Sim) (m : Monitor R)
    (event : Event R) (i : Int) (s : ScreenMetrics R)
    (hids : sim.showHomeScreenPhetioID ≠ sim.screenIndexPhetioID)
    (hi : i ≠ indexAfterUpdate env sim m event) :
    entryAfter env sim m event i s = s := by
  have h1 : ¬ (isShowHomeScreenChange env sim event = true ∧ event.data.newValueBool = false ∧
      i = m.currentScreenIndex) := by
    rintro ⟨ha, -, hc⟩
    have hb : isScreenIndexChange env sim event = false := by
      cases hx : isScreenIndexChange env sim event
      · rfl
      · simp only [isShowHomeScreenChange, isScreenIndexChange, Bool.and_eq_true,
          decide_eq_true_eq] at ha hx
        exact absurd (ha.1.symm.trans hx.1) hids
    apply hi
    simp [indexAfterUpdate, hb, hc]
  unfold entryAfter
  simp [h1, hi]

/-- C18. The frame of one call on the screen entries. For every state and event with the current
index in range before and after lines 88-92 (the two properties having different phetioIDs), the
listener returns; the number of screen entries is unchanged; every screen entry other than the
one at the index held after lines 82-92 is unchanged in all its fields; and in that one entry
`tandemName` and `timeStampOfLastUse` are unchanged. -/
theorem screen_entries_frame [Add R] (env : Env) (sim : Sim) (m : Monitor R) (event : Event R)
    (hids : sim.showHomeScreenPhetioID ≠ sim.screenIndexPhetioID)
    (hcur : ∃ entry, screenAt m.engagementMetrics.screens m.currentScreenIndex = some entry)
    (hnew : ∃ entry, screenAt m.engagementMetrics.screens (indexAfterUpdate env sim m event)
      = some entry) :
    ∃ m', listener env sim m event = Except.ok m' ∧
      m'.currentScreenIndex = indexAfterUpdate env sim m event ∧
      m'.engagementMetrics.screens.length = m.engagementMetrics.screens.length ∧
      (∀ i, i ≠ indexAfterUpdate env sim m event →
        screenAt m'.engagementMetrics.screens i = screenAt m.engagementMetrics.screens i) ∧
      ∃ before after,
        screenAt m.engagementMetrics.screens (indexAfterUpdate env sim m event) = some before ∧
        screenAt m'.engagementMetrics.screens (indexAfterUpdate env sim m event) = some after ∧
        after.tandemName = before.tandemName ∧
        after.timeStampOfLastUse = before.timeStampOfLastUse := by
  obtain ⟨m', h⟩ := listener_completes env sim m event (fun _ _ => hcur) (fun _ _ => hnew)
  obtain ⟨-, hidx, -, -, -, -, -, -, hs, -⟩ := listener_ok h
  obtain ⟨hl, -⟩ := listener_screensActive h
  refine ⟨m', h, hidx, hl, ?_, ?_⟩
  · intro i hi
    rw [hs i]
    cases screenAt m.engagementMetrics.screens i with
    | none => rfl
    | some s => simp [entryAfter_other_index env sim m event i s hids hi]
  · obtain ⟨before, hb⟩ := hnew
    obtain ⟨f1, f2⟩ := entryAfter_fixed env sim m event (indexAfterUpdate env sim m event) before
    exact ⟨before, entryAfter env sim m event (indexAfterUpdate env sim m event) before, hb,
      by rw [hs, hb]; rfl, f1, f2⟩

/-- Witness for C18: a change to the second screen while the first one is showing leaves the
first screen's entry as it was. -/
theorem screen_entries_frame_witness :
    ∃ m', listener demoEnv demoSim demoOpen (screenIndexChanged 300 1) = Except.ok m' ∧
      m'.currentScreenIndex = 1 ∧
      screenAt m'.engagementMetrics.screens 0 = screenAt demoOpen.engagementMetrics.screens 0 :=
  (screen_entries_frame demoEnv demoSim demoOpen (screenIndexChanged 300 1)
    (by decide) ⟨_, rfl⟩ ⟨_, rfl⟩).imp
    fun _ h => ⟨h.1, h.2.1, h.2.2.2.1 0 (by decide)⟩

end ActivityMonitor

/-! ## `SimVersion.compare` -/

/-- C16. `compare` is the three-way lexicographic comparison of `(major, minor, maintenance)`:
it is `-1` exactly when the triple of `a` is lexicographically below that of `b`, `1` exactly when
it is above, and `0` exactly when the three components are equal; it takes no other value; it does
not read `suffix` or `buildTimestamp`; and `a.compare b = -(b.compare a)`. -/
theorem SimVersion.compare_lexicographic (a b : SimVersion)
    (suffixA suffixB timestampA timestampB : Option String) :
    (a.compare b = -1 ↔
      toLex (a.major, toLex (a.minor, a.maintenance)) <
        toLex (b.major, toLex (b.minor, b.maintenance))) ∧
    (a.compare b = 1 ↔
      toLex (b.major, toLex (b.minor, b.maintenance)) <
        toLex (a.major, toLex (a.minor, a.maintenance))) ∧
    (a.compare b = 0 ↔
      a.major = b.major ∧ a.minor = b.minor ∧ a.maintenance = b.maintenance) ∧
    (a.compare b = -1 ∨ a.compare b = 0 ∨ a.compare b = 1) ∧
    SimVersion.compare { a with suffix := suffixA, buildTimestamp := timestampA }
      { b with suffix := suffixB, buildTimestamp := timestampB } = a.compare b ∧
    a.compare b = -(b.compare a) := by
  simp only [Prod.Lex.lt_iff]
  unfold SimVersion.compare
  refine ⟨?_, ?_, ?_, ?_, ?_, ?_⟩ <;> (repeat' split) <;> simp <;> omega
